import Mathlib

/-!
# python-xxhash: the binding layer of `src/python-xxhash.c`

The C file binds the xxHash library to Python: two one-shot functions
(`xxh32`, `xxh64`) and two hashlib-style objects (`XXH32`, `XXH64`) with
`update`, `digest`, `hexdigest` and `copy`.

The development has three layers.

* `HashCore` is the interface of the xxHash library as the binding sees it
  (`xxhash/xxhash.h` is included by the C file and is not among the sources).
* `World` is the memory the binding works on: the malloc-ed state blocks, the
  number of allocations that can still succeed, and the log of the calls made
  into the library.
* The `PYXXH32_*`, `PYXXH64_*`, `xxh32`, `xxh64` definitions follow the C
  functions of the same names statement by statement.

Bytes and machine integers are natural numbers; every assignment to a C
variable of width `w` reduces modulo `2 ^ w`.
-/

namespace PyXXHash

/-! ## The hash core -/

/-- Modelled from the spec: the hash core (`xxhash/xxhash.h`, functions
`XXH32_*` and `XXH64_*`) is not among the sources. The spec describes it as a
pluggable algorithm with `init(seed) -> state`, `absorb(state, bytes)` and
`finalize(state) -> digest`, finalisation being a pure read, plus the one-shot
primitive the binding calls as `XXH32(buf, len, seed)`. The fields carry the C
names without the variant prefix: `update` is absorb, `intermediateDigest` is
the non-consuming finalize and `hash` is the one-shot primitive applied to the
`len` bytes at `buf`. -/
structure HashCore where
  /-- The contents of a state block. -/
  State : Type
  /-- The contents `XXH*_init(seed)` gives to the block it allocates. -/
  init : Nat → State
  /-- The effect of `XXH*_update(state, input, len)` on the block. -/
  update : State → List Nat → State
  /-- The value of `XXH*_intermediateDigest(state)`. -/
  intermediateDigest : State → Nat
  /-- The value of `XXH*(input, len, seed)`. -/
  hash : List Nat → Nat → Nat

/-- Core contract: absorbing a concatenation is absorbing the parts in order,
as far as any later digest can tell. -/
def HashCore.UpdateAppend (xxh : HashCore) : Prop :=
  ∀ (st : xxh.State) (a b : List Nat),
    xxh.intermediateDigest (xxh.update st (a ++ b)) =
      xxh.intermediateDigest (xxh.update (xxh.update st a) b)

/-- Core contract: absorbing zero bytes does not change the digest. -/
def HashCore.UpdateNil (xxh : HashCore) : Prop :=
  ∀ st : xxh.State, xxh.intermediateDigest (xxh.update st []) = xxh.intermediateDigest st

/-- Core contract: the one-shot primitive is init, absorb, intermediate
digest. -/
def HashCore.HashIsStream (xxh : HashCore) : Prop :=
  ∀ (input : List Nat) (seed : Nat),
    xxh.hash input seed = xxh.intermediateDigest (xxh.update (xxh.init seed) input)

/-! ## Memory and the call log -/

/-- The Python exceptions the binding raises itself. -/
inductive PyErr where
  | ValueError
  | MemoryError
  deriving DecidableEq

/-- One call from the binding into the hash core. -/
inductive CoreCall where
  | init (seed : Nat)
  | update (state : Nat) (input : List Nat)
  | intermediateDigest (state : Nat)
  | sizeofState
  | hash (input : List Nat) (seed : Nat)
  deriving DecidableEq

/-- The memory the binding works on. `heap` holds the state blocks, a pointer
being an index into it; `room` is the number of allocations that still
succeed; `calls` logs the calls into the hash core, oldest first. -/
structure World (xxh : HashCore) where
  heap : List xxh.State
  room : Nat
  calls : List CoreCall

/-- The state of a world before any object exists, with room for `room`
allocations. -/
def World.boot (xxh : HashCore) (room : Nat) : World xxh :=
  { heap := [], room := room, calls := [] }

/-- Library call `XXH32_init(seed)` / `XXH64_init(seed)`: allocates a state
block and seeds it, or returns NULL (`none`) when the allocation fails. -/
def XXH_init (xxh : HashCore) (seed : Nat) (w : World xxh) : Option Nat × World xxh :=
  if w.room = 0 then
    (none, { w with calls := w.calls ++ [CoreCall.init seed] })
  else
    (some w.heap.length,
      { heap := w.heap ++ [xxh.init seed], room := w.room - 1,
        calls := w.calls ++ [CoreCall.init seed] })

/-- Library call `XXH32_update(state, input, len)` / `XXH64_update`, `input`
being the `len` bytes read at the pointer. On a pointer to no block the C
behaviour is undefined; the model leaves the heap as it is. -/
def XXH_update (xxh : HashCore) (state : Nat) (input : List Nat) (w : World xxh) :
    World xxh :=
  { w with
    heap := match w.heap[state]? with
      | some st => w.heap.set state (xxh.update st input)
      | none => w.heap
    calls := w.calls ++ [CoreCall.update state input] }

/-- Library call `XXH32_intermediateDigest(state)` / `XXH64_intermediateDigest`;
`none` on a pointer to no block. -/
def XXH_intermediateDigest (xxh : HashCore) (state : Nat) (w : World xxh) :
    Option Nat × World xxh :=
  ((w.heap[state]?).map xxh.intermediateDigest,
    { w with calls := w.calls ++ [CoreCall.intermediateDigest state] })

/-- Library call `XXH32(input, len, seed)` / `XXH64(input, len, seed)`. -/
def XXH_hash (xxh : HashCore) (input : List Nat) (seed : Nat) (w : World xxh) :
    Nat × World xxh :=
  (xxh.hash input seed, { w with calls := w.calls ++ [CoreCall.hash input seed] })

/-- Library call `XXH32_sizeofState()` / `XXH64_sizeofState()`; the size is
that of a whole block. -/
def XXH_sizeofState (xxh : HashCore) (w : World xxh) : World xxh :=
  { w with calls := w.calls ++ [CoreCall.sizeofState] }

/-- The call `memcpy(dst, src, sizeofState)`: the block at `dst` gets the
contents of the block at `src`. -/
def memcpy (xxh : HashCore) (dst src : Nat) (w : World xxh) : World xxh :=
  match w.heap[src]? with
  | some st => { w with heap := w.heap.set dst st }
  | none => w

/-! ## Module functions -/

/-- The function `xxh32` of the source. `view` is the parsed buffer and `seed`
the parsed `start` argument. -/
def xxh32 (xxh : HashCore) (view : List Nat) (seed : Nat) (w : World xxh) :
    Except PyErr Nat × World xxh :=
  if view.length > 1073741824 then
    (Except.error PyErr.ValueError, w)
  else
    let ns := view.length % 2 ^ 32
    let r := XXH_hash xxh (view.take ns) seed w
    (Except.ok (r.1 % 2 ^ 32), r.2)

/-- The function `xxh64` of the source. -/
def xxh64 (xxh : HashCore) (view : List Nat) (seed : Nat) (w : World xxh) :
    Except PyErr Nat × World xxh :=
  if view.length > 1073741824 then
    (Except.error PyErr.ValueError, w)
  else
    let ns := view.length % 2 ^ 32
    let r := XXH_hash xxh (view.take ns) seed w
    (Except.ok (r.1 % 2 ^ 64), r.2)

/-! ## The streaming objects -/

/-- The struct `PYXXH32Object`: one pointer to the state block. -/
structure PYXXH32Object where
  xxhash_state : Nat
  deriving DecidableEq

/-- The struct `PYXXH64Object`: one pointer to the state block. -/
structure PYXXH64Object where
  xxhash_state : Nat
  deriving DecidableEq

/-- The `while (n > 0)` loop that `PYXXH32_init`, `PYXXH32_update`,
`PYXXH64_init` and `PYXXH64_update` each contain (the four copies differ only
in the `XXH32_`/`XXH64_` prefix of the call): `n` bytes remain at `buf`, and
each round hands at most 1073741824 of them to the core, the length downcast
to `unsigned int`. -/
def feed (xxh : HashCore) (state : Nat) (n : Nat) (buf : List Nat) (w : World xxh) :
    World xxh :=
  if h : n > 0 then
    let nbytes := if n > 1073741824 then 1073741824 else n
    feed xxh state (n - nbytes) (buf.drop nbytes)
      (XXH_update xxh state (buf.take (nbytes % 2 ^ 32)) w)
  else w
termination_by n
decreasing_by
  split <;> omega

/-- The function `PYXXH32_init` of the source: the constructor body, after the
arguments are parsed. -/
def PYXXH32_init (xxh : HashCore) (view : List Nat) (seed : Nat) (w : World xxh) :
    Except PyErr PYXXH32Object × World xxh :=
  match XXH_init xxh seed w with
  | (none, w1) => (Except.error PyErr.MemoryError, w1)
  | (some p, w1) => (Except.ok ⟨p⟩, feed xxh p view.length view w1)

/-- The function `PYXXH32_update` of the source. -/
def PYXXH32_update (xxh : HashCore) (self : PYXXH32Object) (view : List Nat)
    (w : World xxh) : World xxh :=
  feed xxh self.xxhash_state view.length view w

/-- The function `PYXXH64_init` of the source. -/
def PYXXH64_init (xxh : HashCore) (view : List Nat) (seed : Nat) (w : World xxh) :
    Except PyErr PYXXH64Object × World xxh :=
  match XXH_init xxh seed w with
  | (none, w1) => (Except.error PyErr.MemoryError, w1)
  | (some p, w1) => (Except.ok ⟨p⟩, feed xxh p view.length view w1)

/-- The function `PYXXH64_update` of the source. -/
def PYXXH64_update (xxh : HashCore) (self : PYXXH64Object) (view : List Nat)
    (w : World xxh) : World xxh :=
  feed xxh self.xxhash_state view.length view w

/-- The bytes at `(char*)&digest` for a `size`-byte unsigned integer, on a
little-endian host (the byte order the spec documents for `digest()`). -/
def objectBytes (size : Nat) (digest : Nat) : List Nat :=
  (List.range size).map fun i => digest / 256 ^ i % 256

/-- The function `PYXXH32_digest` of the source. -/
def PYXXH32_digest (xxh : HashCore) (self : PYXXH32Object) (w : World xxh) :
    Option (List Nat) × World xxh :=
  let r := XXH_intermediateDigest xxh self.xxhash_state w
  (r.1.map fun d => objectBytes 4 (d % 2 ^ 32), r.2)

/-- The function `PYXXH64_digest` of the source. -/
def PYXXH64_digest (xxh : HashCore) (self : PYXXH64Object) (w : World xxh) :
    Option (List Nat) × World xxh :=
  let r := XXH_intermediateDigest xxh self.xxhash_state w
  (r.1.map fun d => objectBytes 8 (d % 2 ^ 64), r.2)

/-- The conditional `(c>9) ? c+'a'-10 : c + '0'` of the hexdigest loops. -/
def hexchar (c : Nat) : Nat :=
  if c > 9 then c + 97 - 10 else c + 48

/-- The `for` loop of `PYXXH32_hex_digest`, `k` rounds to go: two characters
from the top byte of `digest`, then `digest = digest << 8` in 32 bits. -/
def hex_loop32 : Nat → Nat → List Nat → List Nat
  | 0, _, hexdigest => hexdigest
  | k + 1, digest, hexdigest =>
    let c := hexchar ((digest >>> 28) &&& 0xf)
    let hexdigest := hexdigest ++ [c]
    let c := hexchar ((digest >>> 24) &&& 0xf)
    let hexdigest := hexdigest ++ [c]
    hex_loop32 k ((digest <<< 8) % 2 ^ 32) hexdigest

/-- The `for` loop of `PYXXH64_hex_digest`, `k` rounds to go. -/
def hex_loop64 : Nat → Nat → List Nat → List Nat
  | 0, _, hexdigest => hexdigest
  | k + 1, digest, hexdigest =>
    let c := hexchar ((digest >>> 60) &&& 0xf)
    let hexdigest := hexdigest ++ [c]
    let c := hexchar ((digest >>> 56) &&& 0xf)
    let hexdigest := hexdigest ++ [c]
    hex_loop64 k ((digest <<< 8) % 2 ^ 64) hexdigest

/-- The text `PyUnicode_FromStringAndSize` builds from a character array. -/
def pyText (chars : List Nat) : String :=
  String.mk (chars.map Char.ofNat)

/-- The function `PYXXH32_hex_digest` of the source. -/
def PYXXH32_hex_digest (xxh : HashCore) (self : PYXXH32Object) (w : World xxh) :
    Option String × World xxh :=
  let r := XXH_intermediateDigest xxh self.xxhash_state w
  (r.1.map fun d => pyText (hex_loop32 4 (d % 2 ^ 32) []), r.2)

/-- The function `PYXXH64_hex_digest` of the source. There its parameter is
declared `PYXXH32Object *self`; the method table of `XXH64` passes a
`PYXXH64Object`, of the same layout, through a function-pointer cast. -/
def PYXXH64_hex_digest (xxh : HashCore) (self : PYXXH32Object) (w : World xxh) :
    Option String × World xxh :=
  let r := XXH_intermediateDigest xxh self.xxhash_state w
  (r.1.map fun d => pyText (hex_loop64 8 (d % 2 ^ 64) []), r.2)

/-- The cast under which the `hexdigest` entry of `PYXXH64_methods` hands an
`XXH64` object to `PYXXH64_hex_digest`. -/
def PYXXH64Object.cast (self : PYXXH64Object) : PYXXH32Object :=
  ⟨self.xxhash_state⟩

/-- The function `PYXXH32_copy` of the source: the type is called with no
arguments, which runs `PYXXH32_init` on an empty buffer with seed 0, and the
new block is then overwritten with the block of `self`. -/
def PYXXH32_copy (xxh : HashCore) (self : PYXXH32Object) (w : World xxh) :
    Except PyErr PYXXH32Object × World xxh :=
  match PYXXH32_init xxh [] 0 w with
  | (Except.error e, w1) => (Except.error e, w1)
  | (Except.ok hashObject, w1) =>
    (Except.ok hashObject,
      memcpy xxh hashObject.xxhash_state self.xxhash_state (XXH_sizeofState xxh w1))

/-- The function `PYXXH64_copy` of the source. -/
def PYXXH64_copy (xxh : HashCore) (self : PYXXH64Object) (w : World xxh) :
    Except PyErr PYXXH64Object × World xxh :=
  match PYXXH64_init xxh [] 0 w with
  | (Except.error e, w1) => (Except.error e, w1)
  | (Except.ok hashObject, w1) =>
    (Except.ok hashObject,
      memcpy xxh hashObject.xxhash_state self.xxhash_state (XXH_sizeofState xxh w1))

/-! ## The loop and the segments it hands to the core -/

/-- The segments of a buffer: full segments of 1073741824 bytes as long as
more than that remain, then the rest if there is any. -/
def segments (buf : List Nat) : List (List Nat) :=
  if _h : buf.length > 1073741824 then
    buf.take 1073741824 :: segments (buf.drop 1073741824)
  else if buf = [] then [] else [buf]
termination_by buf.length
decreasing_by
  simp only [List.length_drop]
  omega

/-! ## Reading the outputs back -/

/-- The unsigned integer a byte string stands for, least significant byte
first: how the bytes of `digest()` are read back as an integer. -/
def littleEndian : List Nat → Nat
  | [] => 0
  | b :: bs => b + 256 * littleEndian bs

/-- The lowercase hex encoding of a byte string: two digits per byte, the high
nibble first. -/
def hexEncode (bytes : List Nat) : String :=
  String.mk (bytes.flatMap fun b => [Nat.digitChar (b / 16), Nat.digitChar (b % 16)])

/-- The value of a lowercase hex digit; no value for any other character. -/
def hexValue (c : Char) : Option Nat :=
  if 48 ≤ c.toNat ∧ c.toNat ≤ 57 then some (c.toNat - 48)
  else if 97 ≤ c.toNat ∧ c.toNat ≤ 102 then some (c.toNat - 97 + 10)
  else none

/-- Read characters as a base-16 number, most significant digit first,
starting from `acc`. -/
def parseHexFrom (acc : Nat) : List Char → Option Nat
  | [] => some acc
  | c :: cs =>
    match hexValue c with
    | some v => parseHexFrom (16 * acc + v) cs
    | none => none

/-- Parse a text as a base-16 number written with the digits 0-9 and a-f. -/
def parseHex (s : String) : Option Nat :=
  parseHexFrom 0 s.data

/-! ## A reference hash core

The published xxHash arithmetic, in streaming form: bytes are buffered until a
stripe is full, a full stripe is mixed into the four lanes, and the digest
mixes the lanes, the length and the buffered tail. -/

namespace Ref

/-- Rotate the `w`-bit value `x` left by `r` bits. -/
def rotl (w r x : Nat) : Nat :=
  ((x <<< r) ||| (x >>> (w - r))) % 2 ^ w

/-- Read bytes as a little-endian unsigned integer. -/
def readLE : List Nat → Nat
  | [] => 0
  | b :: bs => b % 256 + 256 * readLE bs

def PRIME32_1 : Nat := 2654435761
def PRIME32_2 : Nat := 2246822519
def PRIME32_3 : Nat := 3266489917
def PRIME32_4 : Nat := 668265263
def PRIME32_5 : Nat := 374761393

def PRIME64_1 : Nat := 11400714785074694791
def PRIME64_2 : Nat := 14029467366897019727
def PRIME64_3 : Nat := 1609587929392839161
def PRIME64_4 : Nat := 9650029242287828579
def PRIME64_5 : Nat := 2870177450012600261

/-- State of the 32-bit variant: 16-byte stripes, four 32-bit lanes. -/
structure State32 where
  seed : Nat
  total_len : Nat
  v1 : Nat
  v2 : Nat
  v3 : Nat
  v4 : Nat
  memory : List Nat

/-- State of the 64-bit variant: 32-byte stripes, four 64-bit lanes. -/
structure State64 where
  seed : Nat
  total_len : Nat
  v1 : Nat
  v2 : Nat
  v3 : Nat
  v4 : Nat
  memory : List Nat

/-- One lane round of the 32-bit variant. -/
def round32 (v x : Nat) : Nat :=
  rotl 32 13 ((v + x * PRIME32_2) % 2 ^ 32) * PRIME32_1 % 2 ^ 32

/-- One lane round of the 64-bit variant. -/
def round64 (v x : Nat) : Nat :=
  rotl 64 31 ((v + x * PRIME64_2) % 2 ^ 64) * PRIME64_1 % 2 ^ 64

def XXH32_init (seed : Nat) : State32 :=
  { seed := seed % 2 ^ 32, total_len := 0,
    v1 := (seed + PRIME32_1 + PRIME32_2) % 2 ^ 32,
    v2 := (seed + PRIME32_2) % 2 ^ 32,
    v3 := seed % 2 ^ 32,
    v4 := (seed % 2 ^ 32 + 2 ^ 32 - PRIME32_1) % 2 ^ 32,
    memory := [] }

def XXH64_init (seed : Nat) : State64 :=
  { seed := seed % 2 ^ 64, total_len := 0,
    v1 := (seed + PRIME64_1 + PRIME64_2) % 2 ^ 64,
    v2 := (seed + PRIME64_2) % 2 ^ 64,
    v3 := seed % 2 ^ 64,
    v4 := (seed % 2 ^ 64 + 2 ^ 64 - PRIME64_1) % 2 ^ 64,
    memory := [] }

/-- Absorb one byte: buffer it, and mix the stripe once 16 bytes are there. -/
def absorb32 (st : State32) (b : Nat) : State32 :=
  let mem := st.memory ++ [b]
  if mem.length ≥ 16 then
    { st with
      total_len := (st.total_len + 1) % 2 ^ 64
      v1 := round32 st.v1 (readLE (mem.take 4))
      v2 := round32 st.v2 (readLE ((mem.drop 4).take 4))
      v3 := round32 st.v3 (readLE ((mem.drop 8).take 4))
      v4 := round32 st.v4 (readLE ((mem.drop 12).take 4))
      memory := [] }
  else
    { st with total_len := (st.total_len + 1) % 2 ^ 64, memory := mem }

/-- Absorb one byte: buffer it, and mix the stripe once 32 bytes are there. -/
def absorb64 (st : State64) (b : Nat) : State64 :=
  let mem := st.memory ++ [b]
  if mem.length ≥ 32 then
    { st with
      total_len := (st.total_len + 1) % 2 ^ 64
      v1 := round64 st.v1 (readLE (mem.take 8))
      v2 := round64 st.v2 (readLE ((mem.drop 8).take 8))
      v3 := round64 st.v3 (readLE ((mem.drop 16).take 8))
      v4 := round64 st.v4 (readLE ((mem.drop 24).take 8))
      memory := [] }
  else
    { st with total_len := (st.total_len + 1) % 2 ^ 64, memory := mem }

def XXH32_update (st : State32) (input : List Nat) : State32 :=
  input.foldl absorb32 st

def XXH64_update (st : State64) (input : List Nat) : State64 :=
  input.foldl absorb64 st

/-- The buffered tail of the 32-bit variant: words of four bytes, then single
bytes. -/
def tail32 (h : Nat) : List Nat → Nat
  | b0 :: b1 :: b2 :: b3 :: rest =>
    tail32 (rotl 32 17 ((h + readLE [b0, b1, b2, b3] * PRIME32_3) % 2 ^ 32)
      * PRIME32_4 % 2 ^ 32) rest
  | rest =>
    rest.foldl (fun h b => rotl 32 11 ((h + b % 256 * PRIME32_5) % 2 ^ 32)
      * PRIME32_1 % 2 ^ 32) h

/-- The last bytes of the 64-bit tail: one word of four bytes if there is one,
then single bytes. -/
def tail64_short (h : Nat) : List Nat → Nat
  | b0 :: b1 :: b2 :: b3 :: rest =>
    rest.foldl (fun h b => rotl 64 11 (h ^^^ (b % 256 * PRIME64_5 % 2 ^ 64))
      * PRIME64_1 % 2 ^ 64)
      ((rotl 64 23 (h ^^^ (readLE [b0, b1, b2, b3] * PRIME64_1 % 2 ^ 64))
        * PRIME64_2 + PRIME64_3) % 2 ^ 64)
  | rest =>
    rest.foldl (fun h b => rotl 64 11 (h ^^^ (b % 256 * PRIME64_5 % 2 ^ 64))
      * PRIME64_1 % 2 ^ 64) h

/-- The buffered tail of the 64-bit variant: words of eight bytes first. -/
def tail64 (h : Nat) : List Nat → Nat
  | b0 :: b1 :: b2 :: b3 :: b4 :: b5 :: b6 :: b7 :: rest =>
    tail64 ((rotl 64 27 (h ^^^ round64 0 (readLE [b0, b1, b2, b3, b4, b5, b6, b7]))
      * PRIME64_1 + PRIME64_4) % 2 ^ 64) rest
  | rest => tail64_short h rest

/-- The final avalanche of the 32-bit variant. -/
def avalanche32 (h : Nat) : Nat :=
  let h := (h ^^^ (h >>> 15)) * PRIME32_2 % 2 ^ 32
  let h := (h ^^^ (h >>> 13)) * PRIME32_3 % 2 ^ 32
  h ^^^ (h >>> 16)

/-- The final avalanche of the 64-bit variant. -/
def avalanche64 (h : Nat) : Nat :=
  let h := (h ^^^ (h >>> 33)) * PRIME64_2 % 2 ^ 64
  let h := (h ^^^ (h >>> 29)) * PRIME64_3 % 2 ^ 64
  h ^^^ (h >>> 32)

/-- Fold one lane into the 64-bit accumulator. -/
def merge64 (h v : Nat) : Nat :=
  ((h ^^^ round64 0 v) * PRIME64_1 + PRIME64_4) % 2 ^ 64

def XXH32_intermediateDigest (st : State32) : Nat :=
  let h :=
    if st.total_len ≥ 16 then
      (rotl 32 1 st.v1 + rotl 32 7 st.v2 + rotl 32 12 st.v3 + rotl 32 18 st.v4) % 2 ^ 32
    else (st.seed + PRIME32_5) % 2 ^ 32
  avalanche32 (tail32 ((h + st.total_len) % 2 ^ 32) st.memory)

def XXH64_intermediateDigest (st : State64) : Nat :=
  let h :=
    if st.total_len ≥ 32 then
      merge64 (merge64 (merge64 (merge64
        ((rotl 64 1 st.v1 + rotl 64 7 st.v2 + rotl 64 12 st.v3 + rotl 64 18 st.v4) % 2 ^ 64)
        st.v1) st.v2) st.v3) st.v4
    else (st.seed + PRIME64_5) % 2 ^ 64
  avalanche64 (tail64 ((h + st.total_len) % 2 ^ 64) st.memory)

end Ref

/-- Modelled from the spec: the 32-bit hash core, which is not among the
sources. The spec leaves the mixing arithmetic open; this instance takes the
published xxHash XXH32 arithmetic, and its one-shot primitive is, as the spec
has it, init, absorb, finalize. -/
def XXH32 : HashCore where
  State := Ref.State32
  init := Ref.XXH32_init
  update := Ref.XXH32_update
  intermediateDigest := Ref.XXH32_intermediateDigest
  hash := fun input seed =>
    Ref.XXH32_intermediateDigest (Ref.XXH32_update (Ref.XXH32_init seed) input)

/-- Modelled from the spec: the 64-bit hash core, which is not among the
sources. The spec leaves the mixing arithmetic open; this instance takes the
published xxHash XXH64 arithmetic, and its one-shot primitive is, as the spec
has it, init, absorb, finalize. -/
def XXH64 : HashCore where
  State := Ref.State64
  init := Ref.XXH64_init
  update := Ref.XXH64_update
  intermediateDigest := Ref.XXH64_intermediateDigest
  hash := fun input seed =>
    Ref.XXH64_intermediateDigest (Ref.XXH64_update (Ref.XXH64_init seed) input)

/-- The bytes of an ASCII text. -/
def asciiBytes (s : String) : List Nat :=
  s.data.map Char.toNat

/-! ## Metadata accessors -/

/-- The getter `PYXXH32_get_block_size` of the source. It reads nothing of the
object or of the world. -/
def PYXXH32_get_block_size (xxh : HashCore) (_self : PYXXH32Object) (w : World xxh) :
    Nat × World xxh :=
  (16, w)

/-- The getter `PYXXH32_get_digest_size` of the source. -/
def PYXXH32_get_digest_size (xxh : HashCore) (_self : PYXXH32Object) (w : World xxh) :
    Nat × World xxh :=
  (4, w)

/-- The getter `PYXXH32_get_name` of the source: the text made of the first 5
characters of the C string. -/
def PYXXH32_get_name (xxh : HashCore) (_self : PYXXH32Object) (w : World xxh) :
    String × World xxh :=
  (pyText ((asciiBytes "XXH32").take 5), w)

/-- The getter `PYXXH64_get_block_size` of the source. -/
def PYXXH64_get_block_size (xxh : HashCore) (_self : PYXXH64Object) (w : World xxh) :
    Nat × World xxh :=
  (32, w)

/-- The getter `PYXXH64_get_digest_size` of the source. -/
def PYXXH64_get_digest_size (xxh : HashCore) (_self : PYXXH64Object) (w : World xxh) :
    Nat × World xxh :=
  (8, w)

/-- The getter `PYXXH64_get_name` of the source. -/
def PYXXH64_get_name (xxh : HashCore) (_self : PYXXH64Object) (w : World xxh) :
    String × World xxh :=
  (pyText ((asciiBytes "XXH64").take 5), w)

/-! ## The loop: unfolding lemmas -/

theorem feed_zero (xxh : HashCore) (p : Nat) (buf : List Nat) (w : World xxh) :
    feed xxh p 0 buf w = w := by
  rw [feed]
  simp

theorem feed_small (xxh : HashCore) (p n : Nat) (buf : List Nat) (w : World xxh)
    (hpos : 0 < n) (hle : n ≤ 1073741824) :
    feed xxh p n buf w = XXH_update xxh p (buf.take n) w := by
  rw [feed]
  have h1 : ¬ n > 1073741824 := by omega
  have h2 : n % 2 ^ 32 = n := Nat.mod_eq_of_lt (by omega)
  simp only [hpos, gt_iff_lt, dite_true, h1, if_false, h2, Nat.sub_self]
  exact feed_zero xxh p _ _

theorem feed_large (xxh : HashCore) (p n : Nat) (buf : List Nat) (w : World xxh)
    (hgt : n > 1073741824) :
    feed xxh p n buf w =
      feed xxh p (n - 1073741824) (buf.drop 1073741824)
        (XXH_update xxh p (buf.take 1073741824) w) := by
  rw [feed]
  have hpos : n > 0 := by omega
  have h2 : 1073741824 % 2 ^ 32 = 1073741824 := by norm_num
  simp only [hpos, dite_true, hgt, if_true, h2]

theorem segments_nil : segments [] = [] := by
  rw [segments]
  simp

theorem segments_small (buf : List Nat) (hne : buf ≠ [])
    (hle : buf.length ≤ 1073741824) : segments buf = [buf] := by
  rw [segments]
  have h1 : ¬ buf.length > 1073741824 := by omega
  simp [h1, hne]

theorem segments_large (buf : List Nat) (hgt : buf.length > 1073741824) :
    segments buf = buf.take 1073741824 :: segments (buf.drop 1073741824) := by
  rw [segments]
  simp [hgt]

/-- The loop makes exactly the calls `XXH_update` on the segments of the
buffer, in order. -/
theorem feed_eq_foldl (xxh : HashCore) (p : Nat) :
    ∀ (n : Nat) (buf : List Nat) (w : World xxh), buf.length = n →
      feed xxh p n buf w =
        (segments buf).foldl (fun w s => XXH_update xxh p s w) w := by
  intro n
  induction n using Nat.strong_induction_on with
  | _ n ih =>
    intro buf w hlen
    by_cases hgt : n > 1073741824
    · rw [feed_large xxh p n buf w hgt, segments_large buf (by omega)]
      rw [ih (n - 1073741824) (by omega) _ _ (by simp [List.length_drop, hlen])]
      rfl
    · by_cases hpos : 0 < n
      · have hne : buf ≠ [] := by
          intro h
          rw [h] at hlen
          simp at hlen
          omega
        rw [feed_small xxh p n buf w hpos (by omega), segments_small buf hne (by omega)]
        rw [List.take_of_length_le (by omega)]
        rfl
      · have h0 : n = 0 := by omega
        subst h0
        have hnil : buf = [] := List.length_eq_zero.mp hlen
        subst hnil
        rw [feed_zero, segments_nil]
        rfl

theorem segments_flatten : ∀ (n : Nat) (buf : List Nat), buf.length = n →
    (segments buf).flatten = buf := by
  intro n
  induction n using Nat.strong_induction_on with
  | _ n ih =>
    intro buf hlen
    by_cases hgt : n > 1073741824
    · rw [segments_large buf (by omega), List.flatten_cons,
        ih (n - 1073741824) (by omega) _ (by simp [List.length_drop, hlen])]
      exact List.take_append_drop _ _
    · by_cases hne : buf = []
      · subst hne
        rw [segments_nil]
        rfl
      · rw [segments_small buf hne (by omega)]
        simp

theorem segments_ne_nil : ∀ (n : Nat) (buf : List Nat), buf.length = n →
    ∀ s ∈ segments buf, s ≠ [] := by
  intro n
  induction n using Nat.strong_induction_on with
  | _ n ih =>
    intro buf hlen s hs
    by_cases hgt : n > 1073741824
    · rw [segments_large buf (by omega)] at hs
      rcases List.mem_cons.mp hs with h | h
      · subst h
        intro h0
        have h1 := congrArg List.length h0
        rw [List.length_take] at h1
        simp only [List.length_nil] at h1
        omega
      · exact ih (n - 1073741824) (by omega) _ (by simp [List.length_drop, hlen]) s h
    · by_cases hne : buf = []
      · subst hne
        rw [segments_nil] at hs
        cases hs
      · rw [segments_small buf hne (by omega)] at hs
        simp at hs
        subst hs
        exact hne

/-! ## Memory lemmas -/

theorem set_self_of_getElem? {α : Type} (l : List α) (p : Nat) (a : α)
    (h : l[p]? = some a) : l.set p a = l := by
  apply List.ext_getElem?
  intro n
  rw [List.getElem?_set]
  by_cases hpn : p = n
  · subst hpn
    have hlt : p < l.length := (List.getElem?_eq_some.mp h).1
    simp [hlt, h]
  · simp [hpn]

theorem XXH_update_heap (xxh : HashCore) (p : Nat) (s : List Nat) (w : World xxh)
    (st : xxh.State) (hp : w.heap[p]? = some st) :
    (XXH_update xxh p s w).heap = w.heap.set p (xxh.update st s) := by
  simp [XXH_update, hp]

theorem foldl_update_heap (xxh : HashCore) (p : Nat) :
    ∀ (segs : List (List Nat)) (w : World xxh) (st : xxh.State),
      w.heap[p]? = some st →
      (segs.foldl (fun w s => XXH_update xxh p s w) w).heap =
        w.heap.set p (segs.foldl xxh.update st) := by
  intro segs
  induction segs with
  | nil =>
    intro w st hp
    simp [set_self_of_getElem? _ _ _ hp]
  | cons s segs ih =>
    intro w st hp
    have hlt : p < w.heap.length := (List.getElem?_eq_some.mp hp).1
    have h1 : (XXH_update xxh p s w).heap[p]? = some (xxh.update st s) := by
      rw [XXH_update_heap xxh p s w st hp]
      exact List.getElem?_set_self hlt
    rw [List.foldl_cons, ih _ _ h1, XXH_update_heap xxh p s w st hp, List.set_set]
    rfl

theorem foldl_update_room (xxh : HashCore) (p : Nat) :
    ∀ (segs : List (List Nat)) (w : World xxh),
      (segs.foldl (fun w s => XXH_update xxh p s w) w).room = w.room := by
  intro segs
  induction segs with
  | nil => intro w; rfl
  | cons s segs ih =>
    intro w
    rw [List.foldl_cons, ih]
    rfl

theorem foldl_update_calls (xxh : HashCore) (p : Nat) :
    ∀ (segs : List (List Nat)) (w : World xxh),
      (segs.foldl (fun w s => XXH_update xxh p s w) w).calls =
        w.calls ++ segs.map (CoreCall.update p) := by
  intro segs
  induction segs with
  | nil => intro w; simp
  | cons s segs ih =>
    intro w
    rw [List.foldl_cons, ih]
    simp [XXH_update]


theorem feed_heap (xxh : HashCore) (p : Nat) (buf : List Nat) (w : World xxh)
    (st : xxh.State) (hp : w.heap[p]? = some st) :
    (feed xxh p buf.length buf w).heap =
      w.heap.set p ((segments buf).foldl xxh.update st) := by
  rw [feed_eq_foldl xxh p buf.length buf w rfl]
  exact foldl_update_heap xxh p _ w st hp

theorem feed_heap_get (xxh : HashCore) (p : Nat) (buf : List Nat) (w : World xxh)
    (st : xxh.State) (hp : w.heap[p]? = some st) :
    (feed xxh p buf.length buf w).heap[p]? =
      some ((segments buf).foldl xxh.update st) := by
  rw [feed_heap xxh p buf w st hp]
  exact List.getElem?_set_self (List.getElem?_eq_some.mp hp).1

theorem feed_heap_get_ne (xxh : HashCore) (p q : Nat) (buf : List Nat) (w : World xxh)
    (st : xxh.State) (hp : w.heap[p]? = some st) (hq : p ≠ q) :
    (feed xxh p buf.length buf w).heap[q]? = w.heap[q]? := by
  rw [feed_heap xxh p buf w st hp]
  exact List.getElem?_set_ne hq

theorem feed_room (xxh : HashCore) (p : Nat) (buf : List Nat) (w : World xxh) :
    (feed xxh p buf.length buf w).room = w.room := by
  rw [feed_eq_foldl xxh p buf.length buf w rfl]
  exact foldl_update_room xxh p _ w

theorem feed_calls (xxh : HashCore) (p : Nat) (buf : List Nat) (w : World xxh) :
    (feed xxh p buf.length buf w).calls =
      w.calls ++ (segments buf).map (CoreCall.update p) := by
  rw [feed_eq_foldl xxh p buf.length buf w rfl]
  exact foldl_update_calls xxh p _ w

/-- The segments of a buffer within the cap: none if it is empty, else the
buffer itself. -/
theorem segments_of_le (buf : List Nat) (hle : buf.length ≤ 1073741824) :
    segments buf = if buf = [] then [] else [buf] := by
  by_cases hne : buf = []
  · subst hne
    simp [segments_nil]
  · simp [hne, segments_small buf hne hle]

/-- Within the cap, and for a core on which absorbing nothing changes no
digest, the digest after the loop is the digest after one absorb of the whole
buffer. -/
theorem digest_foldl_of_le (xxh : HashCore) (hnil : xxh.UpdateNil) (buf : List Nat)
    (hle : buf.length ≤ 1073741824) (st : xxh.State) :
    xxh.intermediateDigest ((segments buf).foldl xxh.update st) =
      xxh.intermediateDigest (xxh.update st buf) := by
  rw [segments_of_le buf hle]
  by_cases hne : buf = []
  · subst hne
    simp [hnil st]
  · simp [hne]

/-! ## Construction -/

theorem XXH_init_ok (xxh : HashCore) (seed : Nat) (w : World xxh) (hroom : 0 < w.room) :
    XXH_init xxh seed w =
      (some w.heap.length,
        { heap := w.heap ++ [xxh.init seed], room := w.room - 1,
          calls := w.calls ++ [CoreCall.init seed] }) := by
  have h : ¬ w.room = 0 := by omega
  simp [XXH_init, h]

theorem XXH_init_fail (xxh : HashCore) (seed : Nat) (w : World xxh) (hroom : w.room = 0) :
    XXH_init xxh seed w = (none, { w with calls := w.calls ++ [CoreCall.init seed] }) := by
  simp [XXH_init, hroom]

theorem PYXXH32_init_ok (xxh : HashCore) (view : List Nat) (seed : Nat) (w : World xxh)
    (hroom : 0 < w.room) :
    PYXXH32_init xxh view seed w =
      (Except.ok ⟨w.heap.length⟩,
        feed xxh w.heap.length view.length view
          { heap := w.heap ++ [xxh.init seed], room := w.room - 1,
            calls := w.calls ++ [CoreCall.init seed] }) := by
  simp [PYXXH32_init, XXH_init_ok xxh seed w hroom]

theorem PYXXH64_init_ok (xxh : HashCore) (view : List Nat) (seed : Nat) (w : World xxh)
    (hroom : 0 < w.room) :
    PYXXH64_init xxh view seed w =
      (Except.ok ⟨w.heap.length⟩,
        feed xxh w.heap.length view.length view
          { heap := w.heap ++ [xxh.init seed], room := w.room - 1,
            calls := w.calls ++ [CoreCall.init seed] }) := by
  simp [PYXXH64_init, XXH_init_ok xxh seed w hroom]

/-! ## Byte order -/

theorem littleEndian_objectBytes4 (d : Nat) (hd : d < 2 ^ 32) :
    littleEndian (objectBytes 4 d) = d := by
  simp only [objectBytes, List.range_succ, List.range_zero, List.nil_append,
    List.cons_append, List.map_cons, List.map_nil, littleEndian]
  norm_num at hd ⊢
  omega

theorem littleEndian_objectBytes8 (d : Nat) (hd : d < 2 ^ 64) :
    littleEndian (objectBytes 8 d) = d := by
  simp only [objectBytes, List.range_succ, List.range_zero, List.nil_append,
    List.cons_append, List.map_cons, List.map_nil, littleEndian]
  norm_num at hd ⊢
  omega

/-! ## The one-shot functions -/

theorem xxh32_ok (xxh : HashCore) (view : List Nat) (seed : Nat) (w : World xxh)
    (hle : view.length ≤ 1073741824) :
    xxh32 xxh view seed w =
      (Except.ok (xxh.hash view seed % 2 ^ 32),
        { w with calls := w.calls ++ [CoreCall.hash view seed] }) := by
  have h1 : ¬ view.length > 1073741824 := by omega
  have h2 : view.length % 2 ^ 32 = view.length := Nat.mod_eq_of_lt (by omega)
  unfold xxh32
  rw [if_neg h1]
  simp only [h2, List.take_length, XXH_hash]

theorem xxh64_ok (xxh : HashCore) (view : List Nat) (seed : Nat) (w : World xxh)
    (hle : view.length ≤ 1073741824) :
    xxh64 xxh view seed w =
      (Except.ok (xxh.hash view seed % 2 ^ 64),
        { w with calls := w.calls ++ [CoreCall.hash view seed] }) := by
  have h1 : ¬ view.length > 1073741824 := by omega
  have h2 : view.length % 2 ^ 32 = view.length := Nat.mod_eq_of_lt (by omega)
  unfold xxh64
  rw [if_neg h1]
  simp only [h2, List.take_length, XXH_hash]

theorem xxh32_too_large (xxh : HashCore) (view : List Nat) (seed : Nat) (w : World xxh)
    (hgt : view.length > 1073741824) :
    xxh32 xxh view seed w = (Except.error PyErr.ValueError, w) := by
  simp [xxh32, hgt]

theorem xxh64_too_large (xxh : HashCore) (view : List Nat) (seed : Nat) (w : World xxh)
    (hgt : view.length > 1073741824) :
    xxh64 xxh view seed w = (Except.error PyErr.ValueError, w) := by
  simp [xxh64, hgt]

/-! ## The reference cores keep the core contract -/

theorem XXH32_hashIsStream : XXH32.HashIsStream := fun _ _ => rfl

theorem XXH64_hashIsStream : XXH64.HashIsStream := fun _ _ => rfl

theorem XXH32_updateNil : XXH32.UpdateNil := fun _ => rfl

theorem XXH64_updateNil : XXH64.UpdateNil := fun _ => rfl

theorem XXH32_updateAppend : XXH32.UpdateAppend := by
  intro st a b
  show Ref.XXH32_intermediateDigest (Ref.XXH32_update st (a ++ b)) = _
  rw [Ref.XXH32_update, List.foldl_append]
  rfl

theorem XXH64_updateAppend : XXH64.UpdateAppend := by
  intro st a b
  show Ref.XXH64_intermediateDigest (Ref.XXH64_update st (a ++ b)) = _
  rw [Ref.XXH64_update, List.foldl_append]
  rfl

/-! ## C1: one-shot against streaming -/

theorem stream32_digest (xxh : HashCore) (b : List Nat) (seed : Nat) (w : World xxh)
    (hroom : 0 < w.room) :
    ∃ h w1, PYXXH32_init xxh [] seed w = (Except.ok h, w1) ∧
      (PYXXH32_digest xxh h (PYXXH32_update xxh h b w1)).1 =
        some (objectBytes 4
          (xxh.intermediateDigest ((segments b).foldl xxh.update (xxh.init seed)) % 2 ^ 32)) := by
  refine ⟨⟨w.heap.length⟩, _, PYXXH32_init_ok xxh [] seed w hroom, ?_⟩
  simp only [List.length_nil, feed_zero, PYXXH32_digest, PYXXH32_update,
    XXH_intermediateDigest]
  rw [feed_heap_get xxh _ b _ (xxh.init seed) (by simp)]
  rfl

theorem stream64_digest (xxh : HashCore) (b : List Nat) (seed : Nat) (w : World xxh)
    (hroom : 0 < w.room) :
    ∃ h w1, PYXXH64_init xxh [] seed w = (Except.ok h, w1) ∧
      (PYXXH64_digest xxh h (PYXXH64_update xxh h b w1)).1 =
        some (objectBytes 8
          (xxh.intermediateDigest ((segments b).foldl xxh.update (xxh.init seed)) % 2 ^ 64)) := by
  refine ⟨⟨w.heap.length⟩, _, PYXXH64_init_ok xxh [] seed w hroom, ?_⟩
  simp only [List.length_nil, feed_zero, PYXXH64_digest, PYXXH64_update,
    XXH_intermediateDigest]
  rw [feed_heap_get xxh _ b _ (xxh.init seed) (by simp)]
  rfl

/-- C1. For a buffer of at most 1073741824 bytes and any seed, the integer
`xxh32` (resp. `xxh64`) returns is the integer read, least significant byte
first, from the 4 (resp. 8) bytes of `digest()` of an object constructed with
that seed and given `update(b)` once; the one-shot call hands the core all of
`b`. The core is taken to compute its one-shot primitive as init, absorb,
intermediate digest, and to leave the digest alone when it absorbs nothing. -/
theorem oneshot_eq_streaming (c32 c64 : HashCore)
    (s32 : c32.HashIsStream) (n32 : c32.UpdateNil)
    (s64 : c64.HashIsStream) (n64 : c64.UpdateNil)
    (b : List Nat) (seed : Nat) (hlen : b.length ≤ 1073741824)
    (w32 : World c32) (w64 : World c64) (r32 : 0 < w32.room) (r64 : 0 < w64.room) :
    (∃ h w1 d, PYXXH32_init c32 [] seed w32 = (Except.ok h, w1) ∧
        (PYXXH32_digest c32 h (PYXXH32_update c32 h b w1)).1 = some d ∧
        d.length = 4 ∧
        (xxh32 c32 b seed w32).1 = Except.ok (littleEndian d) ∧
        (xxh32 c32 b seed w32).2.calls = w32.calls ++ [CoreCall.hash b seed]) ∧
    (∃ h w1 d, PYXXH64_init c64 [] seed w64 = (Except.ok h, w1) ∧
        (PYXXH64_digest c64 h (PYXXH64_update c64 h b w1)).1 = some d ∧
        d.length = 8 ∧
        (xxh64 c64 b seed w64).1 = Except.ok (littleEndian d) ∧
        (xxh64 c64 b seed w64).2.calls = w64.calls ++ [CoreCall.hash b seed]) := by
  constructor
  · obtain ⟨h, w1, hinit, hdig⟩ := stream32_digest c32 b seed w32 r32
    refine ⟨h, w1, _, hinit, hdig, by simp [objectBytes], ?_, ?_⟩
    · rw [littleEndian_objectBytes4 _ (Nat.mod_lt _ (by norm_num)),
        digest_foldl_of_le c32 n32 b hlen, ← s32 b seed, xxh32_ok c32 b seed w32 hlen]
    · rw [xxh32_ok c32 b seed w32 hlen]
  · obtain ⟨h, w1, hinit, hdig⟩ := stream64_digest c64 b seed w64 r64
    refine ⟨h, w1, _, hinit, hdig, by simp [objectBytes], ?_, ?_⟩
    · rw [littleEndian_objectBytes8 _ (Nat.mod_lt _ (by norm_num)),
        digest_foldl_of_le c64 n64 b hlen, ← s64 b seed, xxh64_ok c64 b seed w64 hlen]
    · rw [xxh64_ok c64 b seed w64 hlen]


/-- Witness of C1: the reference cores, the buffer "abc", seed 7. -/
theorem oneshot_eq_streaming_witness :
    [97, 98, 99].length ≤ 1073741824 ∧
    0 < (World.boot XXH32 1).room ∧ 0 < (World.boot XXH64 1).room ∧
    ((∃ h w1 d, PYXXH32_init XXH32 [] 7 (World.boot XXH32 1) = (Except.ok h, w1) ∧
        (PYXXH32_digest XXH32 h (PYXXH32_update XXH32 h [97, 98, 99] w1)).1 = some d ∧
        d.length = 4 ∧
        (xxh32 XXH32 [97, 98, 99] 7 (World.boot XXH32 1)).1 = Except.ok (littleEndian d) ∧
        (xxh32 XXH32 [97, 98, 99] 7 (World.boot XXH32 1)).2.calls =
          (World.boot XXH32 1).calls ++ [CoreCall.hash [97, 98, 99] 7]) ∧
     (∃ h w1 d, PYXXH64_init XXH64 [] 7 (World.boot XXH64 1) = (Except.ok h, w1) ∧
        (PYXXH64_digest XXH64 h (PYXXH64_update XXH64 h [97, 98, 99] w1)).1 = some d ∧
        d.length = 8 ∧
        (xxh64 XXH64 [97, 98, 99] 7 (World.boot XXH64 1)).1 = Except.ok (littleEndian d) ∧
        (xxh64 XXH64 [97, 98, 99] 7 (World.boot XXH64 1)).2.calls =
          (World.boot XXH64 1).calls ++ [CoreCall.hash [97, 98, 99] 7])) :=
  ⟨by decide, by decide, by decide,
    oneshot_eq_streaming XXH32 XXH64 XXH32_hashIsStream XXH32_updateNil
      XXH64_hashIsStream XXH64_updateNil [97, 98, 99] 7 (by decide)
      (World.boot XXH32 1) (World.boot XXH64 1) (by decide) (by decide)⟩

/-! ## C2: chunk invariance -/

/-- On a core that absorbs a concatenation as its parts, the digest after
absorbing a non-empty list of segments one by one is the digest after
absorbing their concatenation at once. -/
theorem digest_foldl_flatten (xxh : HashCore) (happ : xxh.UpdateAppend) :
    ∀ (segs : List (List Nat)) (st : xxh.State), segs ≠ [] →
      xxh.intermediateDigest (segs.foldl xxh.update st) =
        xxh.intermediateDigest (xxh.update st segs.flatten) := by
  intro segs
  induction segs with
  | nil => intro st h; exact absurd rfl h
  | cons s rest ih =>
    intro st _
    by_cases hrest : rest = []
    · subst hrest
      simp
    · rw [List.foldl_cons, ih (xxh.update st s) hrest, List.flatten_cons]
      exact (happ st s rest.flatten).symm

theorem eq_nil_of_flatten_nil (segs : List (List Nat)) (hne : ∀ s ∈ segs, s ≠ [])
    (hflat : segs.flatten = []) : segs = [] := by
  cases segs with
  | nil => rfl
  | cons s rest =>
    have h1 := List.flatten_eq_nil_iff.mp hflat s (List.mem_cons_self s rest)
    exact absurd h1 (hne s (List.mem_cons_self s rest))

/-- Two lists of non-empty segments with the same concatenation give the same
digest. -/
theorem digest_foldl_congr (xxh : HashCore) (happ : xxh.UpdateAppend)
    (segs1 segs2 : List (List Nat)) (st : xxh.State)
    (h1 : ∀ s ∈ segs1, s ≠ []) (h2 : ∀ s ∈ segs2, s ≠ [])
    (hflat : segs1.flatten = segs2.flatten) :
    xxh.intermediateDigest (segs1.foldl xxh.update st) =
      xxh.intermediateDigest (segs2.foldl xxh.update st) := by
  by_cases hn1 : segs1 = []
  · subst hn1
    have hn2 : segs2 = [] := eq_nil_of_flatten_nil segs2 h2 (by rw [← hflat]; rfl)
    subst hn2
    rfl
  · have hn2 : segs2 ≠ [] := by
      intro hn2
      subst hn2
      exact hn1 (eq_nil_of_flatten_nil segs1 h1 (by rw [hflat]; rfl))
    rw [digest_foldl_flatten xxh happ segs1 st hn1,
      digest_foldl_flatten xxh happ segs2 st hn2, hflat]

/-- A sequence of loops, one per piece, makes the calls `XXH_update` on the
segments of the pieces, in order. -/
theorem foldl_feed_eq (xxh : HashCore) (p : Nat) :
    ∀ (pieces : List (List Nat)) (w : World xxh),
      pieces.foldl (fun w b => feed xxh p b.length b w) w =
        (pieces.flatMap segments).foldl (fun w s => XXH_update xxh p s w) w := by
  intro pieces
  induction pieces with
  | nil => intro w; rfl
  | cons b rest ih =>
    intro w
    rw [List.foldl_cons, ih, feed_eq_foldl xxh p b.length b w rfl, List.flatMap_cons,
      List.foldl_append]

theorem flatMap_segments_flatten (pieces : List (List Nat)) :
    (pieces.flatMap segments).flatten = pieces.flatten := by
  induction pieces with
  | nil => rfl
  | cons b rest ih =>
    rw [List.flatMap_cons, List.flatten_append, ih, segments_flatten b.length b rfl,
      List.flatten_cons]

theorem flatMap_segments_ne_nil (pieces : List (List Nat)) :
    ∀ s ∈ pieces.flatMap segments, s ≠ [] := by
  intro s hs
  obtain ⟨b, _, hb⟩ := List.mem_flatMap.mp hs
  exact segments_ne_nil b.length b rfl s hb

/-- The digest value after one loop over the whole buffer and after one loop
per piece, read at a block that holds `st`. -/
theorem digest_pieces (xxh : HashCore) (happ : xxh.UpdateAppend) (p : Nat)
    (pieces : List (List Nat)) (w : World xxh) (st : xxh.State)
    (hp : w.heap[p]? = some st) :
    ∃ st1 st2,
      (feed xxh p pieces.flatten.length pieces.flatten w).heap[p]? = some st1 ∧
      (pieces.foldl (fun w b => feed xxh p b.length b w) w).heap[p]? = some st2 ∧
      xxh.intermediateDigest st1 = xxh.intermediateDigest st2 := by
  have hlt : p < w.heap.length := (List.getElem?_eq_some.mp hp).1
  refine ⟨(segments pieces.flatten).foldl xxh.update st,
    (pieces.flatMap segments).foldl xxh.update st,
    feed_heap_get xxh p pieces.flatten w st hp, ?_, ?_⟩
  · rw [foldl_feed_eq, foldl_update_heap xxh p _ w st hp]
    exact List.getElem?_set_self hlt
  · exact digest_foldl_congr xxh happ _ _ st
      (segments_ne_nil _ _ rfl) (flatMap_segments_ne_nil pieces)
      (by rw [segments_flatten _ _ rfl, flatMap_segments_flatten])

/-- C2. Chunk invariance: for every seed and every list of pieces, of any
lengths, a hasher that receives `update` once with the concatenation of the
pieces and a hasher constructed with the same seed that receives `update` with
each piece in turn have the same `digest()`, for `XXH32` and for `XXH64`. The
core is taken to absorb a concatenation as it absorbs the parts in order. -/
theorem chunk_invariance (c32 c64 : HashCore)
    (a32 : c32.UpdateAppend) (a64 : c64.UpdateAppend)
    (seed : Nat) (pieces : List (List Nat))
    (w32 : World c32) (w64 : World c64) (r32 : 0 < w32.room) (r64 : 0 < w64.room) :
    (∃ h w1 d, PYXXH32_init c32 [] seed w32 = (Except.ok h, w1) ∧
        (PYXXH32_digest c32 h (PYXXH32_update c32 h pieces.flatten w1)).1 = some d ∧
        (PYXXH32_digest c32 h
          (pieces.foldl (fun w b => PYXXH32_update c32 h b w) w1)).1 = some d) ∧
    (∃ h w1 d, PYXXH64_init c64 [] seed w64 = (Except.ok h, w1) ∧
        (PYXXH64_digest c64 h (PYXXH64_update c64 h pieces.flatten w1)).1 = some d ∧
        (PYXXH64_digest c64 h
          (pieces.foldl (fun w b => PYXXH64_update c64 h b w) w1)).1 = some d) := by
  constructor
  · obtain ⟨st1, st2, h1, h2, h12⟩ := digest_pieces c32 a32 w32.heap.length pieces
      { heap := w32.heap ++ [c32.init seed], room := w32.room - 1,
        calls := w32.calls ++ [CoreCall.init seed] } (c32.init seed) (by simp)
    refine ⟨⟨w32.heap.length⟩, (PYXXH32_init c32 [] seed w32).2,
      objectBytes 4 (c32.intermediateDigest st1 % 2 ^ 32), ?_, ?_, ?_⟩
    · rw [PYXXH32_init_ok c32 [] seed w32 r32]
    · rw [PYXXH32_init_ok c32 [] seed w32 r32]
      simp only [List.length_nil, feed_zero, PYXXH32_digest, PYXXH32_update,
        XXH_intermediateDigest, h1, Option.map_some']
    · rw [PYXXH32_init_ok c32 [] seed w32 r32]
      simp only [List.length_nil, feed_zero, PYXXH32_digest, PYXXH32_update,
        XXH_intermediateDigest, h2, h12, Option.map_some']
  · obtain ⟨st1, st2, h1, h2, h12⟩ := digest_pieces c64 a64 w64.heap.length pieces
      { heap := w64.heap ++ [c64.init seed], room := w64.room - 1,
        calls := w64.calls ++ [CoreCall.init seed] } (c64.init seed) (by simp)
    refine ⟨⟨w64.heap.length⟩, (PYXXH64_init c64 [] seed w64).2,
      objectBytes 8 (c64.intermediateDigest st1 % 2 ^ 64), ?_, ?_, ?_⟩
    · rw [PYXXH64_init_ok c64 [] seed w64 r64]
    · rw [PYXXH64_init_ok c64 [] seed w64 r64]
      simp only [List.length_nil, feed_zero, PYXXH64_digest, PYXXH64_update,
        XXH_intermediateDigest, h1, Option.map_some']
    · rw [PYXXH64_init_ok c64 [] seed w64 r64]
      simp only [List.length_nil, feed_zero, PYXXH64_digest, PYXXH64_update,
        XXH_intermediateDigest, h2, h12, Option.map_some']


/-- Witness of C2: the reference cores, seed 5, and three pieces of which the
first is longer than the per-call cap. -/
theorem chunk_invariance_witness :
    0 < (World.boot XXH32 1).room ∧ 0 < (World.boot XXH64 1).room ∧
    ((∃ h w1 d, PYXXH32_init XXH32 [] 5 (World.boot XXH32 1) = (Except.ok h, w1) ∧
        (PYXXH32_digest XXH32 h (PYXXH32_update XXH32 h
          [List.replicate 1073741829 0, [], [1, 2, 3]].flatten w1)).1 = some d ∧
        (PYXXH32_digest XXH32 h
          ([List.replicate 1073741829 0, [], [1, 2, 3]].foldl
            (fun w b => PYXXH32_update XXH32 h b w) w1)).1 = some d) ∧
     (∃ h w1 d, PYXXH64_init XXH64 [] 5 (World.boot XXH64 1) = (Except.ok h, w1) ∧
        (PYXXH64_digest XXH64 h (PYXXH64_update XXH64 h
          [List.replicate 1073741829 0, [], [1, 2, 3]].flatten w1)).1 = some d ∧
        (PYXXH64_digest XXH64 h
          ([List.replicate 1073741829 0, [], [1, 2, 3]].foldl
            (fun w b => PYXXH64_update XXH64 h b w) w1)).1 = some d)) :=
  ⟨by decide, by decide,
    chunk_invariance XXH32 XXH64 XXH32_updateAppend XXH64_updateAppend 5
      [List.replicate 1073741829 0, [], [1, 2, 3]]
      (World.boot XXH32 1) (World.boot XXH64 1) (by decide) (by decide)⟩

/-! ## C3: oversize rejection on the one-shot path -/

/-- C3. `xxh32` and `xxh64` fail with `ValueError` exactly when the buffer is
longer than 1073741824 bytes: a buffer of 1073741824 bytes gets a value, one
of 1073741825 bytes the error, and on the error the world is left as it was,
so no call into the hash core has been made. -/
theorem oneshot_oversize (c32 c64 : HashCore) (view : List Nat) (seed : Nat)
    (w32 : World c32) (w64 : World c64) :
    ((xxh32 c32 view seed w32).1 = Except.error PyErr.ValueError ↔
        view.length > 1073741824) ∧
    ((xxh64 c64 view seed w64).1 = Except.error PyErr.ValueError ↔
        view.length > 1073741824) ∧
    (view.length = 1073741824 →
        (xxh32 c32 view seed w32).1 = Except.ok (c32.hash view seed % 2 ^ 32) ∧
        (xxh64 c64 view seed w64).1 = Except.ok (c64.hash view seed % 2 ^ 64)) ∧
    (view.length = 1073741825 →
        (xxh32 c32 view seed w32).1 = Except.error PyErr.ValueError ∧
        (xxh64 c64 view seed w64).1 = Except.error PyErr.ValueError) ∧
    (view.length > 1073741824 →
        (xxh32 c32 view seed w32).2 = w32 ∧ (xxh32 c32 view seed w32).2.calls = w32.calls ∧
        (xxh64 c64 view seed w64).2 = w64 ∧ (xxh64 c64 view seed w64).2.calls = w64.calls) := by
  refine ⟨?_, ?_, ?_, ?_, ?_⟩
  · by_cases hgt : view.length > 1073741824
    · simp [xxh32_too_large c32 view seed w32 hgt, hgt]
    · simp [xxh32_ok c32 view seed w32 (by omega), hgt]
  · by_cases hgt : view.length > 1073741824
    · simp [xxh64_too_large c64 view seed w64 hgt, hgt]
    · simp [xxh64_ok c64 view seed w64 (by omega), hgt]
  · intro h
    rw [xxh32_ok c32 view seed w32 (by omega), xxh64_ok c64 view seed w64 (by omega)]
    exact ⟨rfl, rfl⟩
  · intro h
    rw [xxh32_too_large c32 view seed w32 (by omega),
      xxh64_too_large c64 view seed w64 (by omega)]
    exact ⟨rfl, rfl⟩
  · intro h
    rw [xxh32_too_large c32 view seed w32 h, xxh64_too_large c64 view seed w64 h]
    exact ⟨rfl, rfl, rfl, rfl⟩

/-! ## C4: copy -/

theorem XXH_init_nil_feed (xxh : HashCore) (p : Nat) (w : World xxh) :
    feed xxh p ([] : List Nat).length [] w = w :=
  feed_zero xxh p [] w

/-- What `copy` does on an object whose block exists, when the allocation of
the new block succeeds: the new block is appended and holds the contents of
the old one. -/
theorem PYXXH32_copy_ok (xxh : HashCore) (self : PYXXH32Object) (w : World xxh)
    (st : xxh.State) (hp : w.heap[self.xxhash_state]? = some st) (hroom : 0 < w.room) :
    PYXXH32_copy xxh self w =
      (Except.ok ⟨w.heap.length⟩,
        { heap := w.heap ++ [st], room := w.room - 1,
          calls := w.calls ++ [CoreCall.init 0, CoreCall.sizeofState] }) := by
  have hlt : self.xxhash_state < w.heap.length := (List.getElem?_eq_some.mp hp).1
  have hsrc : (w.heap ++ [xxh.init 0])[self.xxhash_state]? = some st := by
    rw [List.getElem?_append_left hlt]
    exact hp
  simp only [PYXXH32_copy, PYXXH32_init_ok xxh [] 0 w hroom, XXH_init_nil_feed, memcpy,
    XXH_sizeofState, hsrc]
  simp [List.set_append]

theorem PYXXH64_copy_ok (xxh : HashCore) (self : PYXXH64Object) (w : World xxh)
    (st : xxh.State) (hp : w.heap[self.xxhash_state]? = some st) (hroom : 0 < w.room) :
    PYXXH64_copy xxh self w =
      (Except.ok ⟨w.heap.length⟩,
        { heap := w.heap ++ [st], room := w.room - 1,
          calls := w.calls ++ [CoreCall.init 0, CoreCall.sizeofState] }) := by
  have hlt : self.xxhash_state < w.heap.length := (List.getElem?_eq_some.mp hp).1
  have hsrc : (w.heap ++ [xxh.init 0])[self.xxhash_state]? = some st := by
    rw [List.getElem?_append_left hlt]
    exact hp
  simp only [PYXXH64_copy, PYXXH64_init_ok xxh [] 0 w hroom, XXH_init_nil_feed, memcpy,
    XXH_sizeofState, hsrc]
  simp [List.set_append]

/-- The block of an object that was constructed on `data` with `seed` and then
given the buffers `updates`: the core has absorbed the segments of `data` and
of each update, in order, into the state seeded with `seed`. -/
theorem constructed_heap (xxh : HashCore) (seed : Nat) (data : List Nat)
    (updates : List (List Nat)) (w : World xxh) :
    (updates.foldl (fun v b => feed xxh w.heap.length b.length b v)
        (feed xxh w.heap.length data.length data
          { heap := w.heap ++ [xxh.init seed], room := w.room - 1,
            calls := w.calls ++ [CoreCall.init seed] })).heap =
      w.heap ++
        [(segments data ++ updates.flatMap segments).foldl xxh.update (xxh.init seed)] := by
  rw [foldl_feed_eq, feed_eq_foldl xxh _ data.length data _ rfl, ← List.foldl_append,
    foldl_update_heap xxh _ _ _ (xxh.init seed) (by simp)]
  simp [List.set_append]

theorem constructed_room (xxh : HashCore) (seed : Nat) (data : List Nat)
    (updates : List (List Nat)) (w : World xxh) :
    (updates.foldl (fun v b => feed xxh w.heap.length b.length b v)
        (feed xxh w.heap.length data.length data
          { heap := w.heap ++ [xxh.init seed], room := w.room - 1,
            calls := w.calls ++ [CoreCall.init seed] })).room = w.room - 1 := by
  rw [foldl_feed_eq, feed_eq_foldl xxh _ data.length data _ rfl, ← List.foldl_append,
    foldl_update_room]

/-- A digest read at one block is not changed by a loop on another block. -/
theorem digest_feed_other (xxh : HashCore) (p q : Nat) (buf : List Nat) (w : World xxh)
    (st : xxh.State) (hp : w.heap[p]? = some st) (hpq : p ≠ q) :
    (XXH_intermediateDigest xxh q (feed xxh p buf.length buf w)).1 =
      (XXH_intermediateDigest xxh q w).1 := by
  simp only [XXH_intermediateDigest, feed_heap_get_ne xxh p q buf w st hp hpq]

/-- Original and copy after `copy`, in terms of the library calls: both
blocks hold `st`, and a loop on either leaves the digest of the other. -/
theorem copy_blocks (xxh : HashCore) (heap : List xxh.State) (st : xxh.State)
    (room : Nat) (calls : List CoreCall) (x : List Nat) :
    ∀ w : World xxh, w = { heap := heap ++ [st] ++ [st], room := room, calls := calls } →
      w.heap[heap.length]? = some st ∧ w.heap[heap.length + 1]? = some st ∧
      (XXH_intermediateDigest xxh (heap.length + 1)
          (feed xxh heap.length x.length x w)).1 = some (xxh.intermediateDigest st) ∧
      (XXH_intermediateDigest xxh heap.length
          (feed xxh (heap.length + 1) x.length x w)).1 = some (xxh.intermediateDigest st) := by
  intro w hw
  have h1 : w.heap[heap.length]? = some st := by
    subst hw
    show (heap ++ [st] ++ [st])[heap.length]? = some st
    rw [List.append_assoc, List.getElem?_append_right (Nat.le_refl _)]
    simp
  have h2 : w.heap[heap.length + 1]? = some st := by
    subst hw
    show (heap ++ [st] ++ [st])[heap.length + 1]? = some st
    rw [List.append_assoc, List.getElem?_append_right (Nat.le_succ _)]
    simp
  refine ⟨h1, h2, ?_, ?_⟩
  · rw [digest_feed_other xxh _ _ x w st h1 (by omega)]
    simp [XXH_intermediateDigest, h2]
  · rw [digest_feed_other xxh _ _ x w st h2 (by omega)]
    simp [XXH_intermediateDigest, h1]

/-- C4. Copy equality and independence. Let `h1` be constructed with any seed
and initial data and then given any sequence of updates, and let
`h2 = h1.copy()`. Then `h2` has its own block, which holds what the block of
`h1` holds (the state seeded with the seed of `h1` that absorbed its bytes,
not the seed-0 state the constructor call inside `copy` made);
`h2.digest() == h1.digest()`, which is also the digest of `h1` before the
copy; and for every buffer `x`, `h1.update(x)` leaves `h2.digest()` unchanged
and `h2.update(x)` leaves `h1.digest()` unchanged. For `XXH32` and `XXH64`. -/
theorem copy_equal_independent (c32 c64 : HashCore) (seed : Nat) (data : List Nat)
    (updates : List (List Nat)) (x : List Nat)
    (w32 : World c32) (w64 : World c64) (r32 : 1 < w32.room) (r64 : 1 < w64.room) :
    (∃ h1 w1 h2 w2 d,
      PYXXH32_init c32 data seed w32 = (Except.ok h1, w1) ∧
      PYXXH32_copy c32 h1 (updates.foldl (fun v b => PYXXH32_update c32 h1 b v) w1) =
        (Except.ok h2, w2) ∧
      h2.xxhash_state ≠ h1.xxhash_state ∧
      w2.heap[h1.xxhash_state]? =
        some ((segments data ++ updates.flatMap segments).foldl c32.update (c32.init seed)) ∧
      w2.heap[h2.xxhash_state]? =
        some ((segments data ++ updates.flatMap segments).foldl c32.update (c32.init seed)) ∧
      (PYXXH32_digest c32 h1
        (updates.foldl (fun v b => PYXXH32_update c32 h1 b v) w1)).1 = some d ∧
      (PYXXH32_digest c32 h1 w2).1 = some d ∧
      (PYXXH32_digest c32 h2 w2).1 = some d ∧
      (PYXXH32_digest c32 h2 (PYXXH32_update c32 h1 x w2)).1 = some d ∧
      (PYXXH32_digest c32 h1 (PYXXH32_update c32 h2 x w2)).1 = some d) ∧
    (∃ h1 w1 h2 w2 d,
      PYXXH64_init c64 data seed w64 = (Except.ok h1, w1) ∧
      PYXXH64_copy c64 h1 (updates.foldl (fun v b => PYXXH64_update c64 h1 b v) w1) =
        (Except.ok h2, w2) ∧
      h2.xxhash_state ≠ h1.xxhash_state ∧
      w2.heap[h1.xxhash_state]? =
        some ((segments data ++ updates.flatMap segments).foldl c64.update (c64.init seed)) ∧
      w2.heap[h2.xxhash_state]? =
        some ((segments data ++ updates.flatMap segments).foldl c64.update (c64.init seed)) ∧
      (PYXXH64_digest c64 h1
        (updates.foldl (fun v b => PYXXH64_update c64 h1 b v) w1)).1 = some d ∧
      (PYXXH64_digest c64 h1 w2).1 = some d ∧
      (PYXXH64_digest c64 h2 w2).1 = some d ∧
      (PYXXH64_digest c64 h2 (PYXXH64_update c64 h1 x w2)).1 = some d ∧
      (PYXXH64_digest c64 h1 (PYXXH64_update c64 h2 x w2)).1 = some d) := by
  constructor
  · have hheap := constructed_heap c32 seed data updates w32
    have hroom := constructed_room c32 seed data updates w32
    generalize hst :
      (segments data ++ updates.flatMap segments).foldl c32.update (c32.init seed) = st
      at hheap
    generalize hW : (updates.foldl (fun v b => feed c32 w32.heap.length b.length b v)
        (feed c32 w32.heap.length data.length data
          { heap := w32.heap ++ [c32.init seed], room := w32.room - 1,
            calls := w32.calls ++ [CoreCall.init seed] })) = W at hheap hroom
    have hp : W.heap[w32.heap.length]? = some st := by
      rw [hheap]
      simp
    have hlen : W.heap.length = w32.heap.length + 1 := by
      rw [hheap]
      simp
    have hcopy := PYXXH32_copy_ok c32 ⟨w32.heap.length⟩ W st hp (by omega)
    obtain ⟨b1, b2, b3, b4⟩ := copy_blocks c32 w32.heap st (W.room - 1)
      (W.calls ++ [CoreCall.init 0, CoreCall.sizeofState]) x
      { heap := W.heap ++ [st], room := W.room - 1,
        calls := W.calls ++ [CoreCall.init 0, CoreCall.sizeofState] } (by rw [hheap])
    refine ⟨⟨w32.heap.length⟩, (PYXXH32_init c32 data seed w32).2, ⟨W.heap.length⟩,
      { heap := W.heap ++ [st], room := W.room - 1,
        calls := W.calls ++ [CoreCall.init 0, CoreCall.sizeofState] },
      objectBytes 4 (c32.intermediateDigest st % 2 ^ 32), ?_, ?_, ?_, ?_, ?_, ?_, ?_, ?_, ?_, ?_⟩
    · rw [PYXXH32_init_ok c32 data seed w32 (by omega)]
    · rw [PYXXH32_init_ok c32 data seed w32 (by omega)]
      simp only [PYXXH32_update, hW]
      exact hcopy
    · simp only [hlen]
      omega
    · exact b1
    · simp only [hlen]
      exact b2
    · rw [PYXXH32_init_ok c32 data seed w32 (by omega)]
      simp only [PYXXH32_update, hW, PYXXH32_digest, XXH_intermediateDigest, hp,
        Option.map_some']
    · simp only [PYXXH32_digest, XXH_intermediateDigest, b1, Option.map_some']
    · simp only [hlen, PYXXH32_digest, XXH_intermediateDigest, b2, Option.map_some']
    · simp only [hlen, PYXXH32_digest, PYXXH32_update, b3, Option.map_some']
    · simp only [hlen, PYXXH32_digest, PYXXH32_update, b4, Option.map_some']
  · have hheap := constructed_heap c64 seed data updates w64
    have hroom := constructed_room c64 seed data updates w64
    generalize hst :
      (segments data ++ updates.flatMap segments).foldl c64.update (c64.init seed) = st
      at hheap
    generalize hW : (updates.foldl (fun v b => feed c64 w64.heap.length b.length b v)
        (feed c64 w64.heap.length data.length data
          { heap := w64.heap ++ [c64.init seed], room := w64.room - 1,
            calls := w64.calls ++ [CoreCall.init seed] })) = W at hheap hroom
    have hp : W.heap[w64.heap.length]? = some st := by
      rw [hheap]
      simp
    have hlen : W.heap.length = w64.heap.length + 1 := by
      rw [hheap]
      simp
    have hcopy := PYXXH64_copy_ok c64 ⟨w64.heap.length⟩ W st hp (by omega)
    obtain ⟨b1, b2, b3, b4⟩ := copy_blocks c64 w64.heap st (W.room - 1)
      (W.calls ++ [CoreCall.init 0, CoreCall.sizeofState]) x
      { heap := W.heap ++ [st], room := W.room - 1,
        calls := W.calls ++ [CoreCall.init 0, CoreCall.sizeofState] } (by rw [hheap])
    refine ⟨⟨w64.heap.length⟩, (PYXXH64_init c64 data seed w64).2, ⟨W.heap.length⟩,
      { heap := W.heap ++ [st], room := W.room - 1,
        calls := W.calls ++ [CoreCall.init 0, CoreCall.sizeofState] },
      objectBytes 8 (c64.intermediateDigest st % 2 ^ 64), ?_, ?_, ?_, ?_, ?_, ?_, ?_, ?_, ?_, ?_⟩
    · rw [PYXXH64_init_ok c64 data seed w64 (by omega)]
    · rw [PYXXH64_init_ok c64 data seed w64 (by omega)]
      simp only [PYXXH64_update, hW]
      exact hcopy
    · simp only [hlen]
      omega
    · exact b1
    · simp only [hlen]
      exact b2
    · rw [PYXXH64_init_ok c64 data seed w64 (by omega)]
      simp only [PYXXH64_update, hW, PYXXH64_digest, XXH_intermediateDigest, hp,
        Option.map_some']
    · simp only [PYXXH64_digest, XXH_intermediateDigest, b1, Option.map_some']
    · simp only [hlen, PYXXH64_digest, XXH_intermediateDigest, b2, Option.map_some']
    · simp only [hlen, PYXXH64_digest, PYXXH64_update, b3, Option.map_some']
    · simp only [hlen, PYXXH64_digest, PYXXH64_update, b4, Option.map_some']


/-- Witness of C4: the reference cores, seed 9, initial data "ab", two
updates, and the buffer "z" for the update after the copy. -/
theorem copy_equal_independent_witness :
    1 < (World.boot XXH32 2).room ∧ 1 < (World.boot XXH64 2).room ∧
    ((∃ h1 w1 h2 w2 d,
      PYXXH32_init XXH32 [97, 98] 9 (World.boot XXH32 2) = (Except.ok h1, w1) ∧
      PYXXH32_copy XXH32 h1
        ([[99], [100, 101]].foldl (fun v b => PYXXH32_update XXH32 h1 b v) w1) =
        (Except.ok h2, w2) ∧
      h2.xxhash_state ≠ h1.xxhash_state ∧
      w2.heap[h1.xxhash_state]? =
        some ((segments [97, 98] ++ [[99], [100, 101]].flatMap segments).foldl
          XXH32.update (XXH32.init 9)) ∧
      w2.heap[h2.xxhash_state]? =
        some ((segments [97, 98] ++ [[99], [100, 101]].flatMap segments).foldl
          XXH32.update (XXH32.init 9)) ∧
      (PYXXH32_digest XXH32 h1
        ([[99], [100, 101]].foldl (fun v b => PYXXH32_update XXH32 h1 b v) w1)).1 = some d ∧
      (PYXXH32_digest XXH32 h1 w2).1 = some d ∧
      (PYXXH32_digest XXH32 h2 w2).1 = some d ∧
      (PYXXH32_digest XXH32 h2 (PYXXH32_update XXH32 h1 [122] w2)).1 = some d ∧
      (PYXXH32_digest XXH32 h1 (PYXXH32_update XXH32 h2 [122] w2)).1 = some d) ∧
    (∃ h1 w1 h2 w2 d,
      PYXXH64_init XXH64 [97, 98] 9 (World.boot XXH64 2) = (Except.ok h1, w1) ∧
      PYXXH64_copy XXH64 h1
        ([[99], [100, 101]].foldl (fun v b => PYXXH64_update XXH64 h1 b v) w1) =
        (Except.ok h2, w2) ∧
      h2.xxhash_state ≠ h1.xxhash_state ∧
      w2.heap[h1.xxhash_state]? =
        some ((segments [97, 98] ++ [[99], [100, 101]].flatMap segments).foldl
          XXH64.update (XXH64.init 9)) ∧
      w2.heap[h2.xxhash_state]? =
        some ((segments [97, 98] ++ [[99], [100, 101]].flatMap segments).foldl
          XXH64.update (XXH64.init 9)) ∧
      (PYXXH64_digest XXH64 h1
        ([[99], [100, 101]].foldl (fun v b => PYXXH64_update XXH64 h1 b v) w1)).1 = some d ∧
      (PYXXH64_digest XXH64 h1 w2).1 = some d ∧
      (PYXXH64_digest XXH64 h2 w2).1 = some d ∧
      (PYXXH64_digest XXH64 h2 (PYXXH64_update XXH64 h1 [122] w2)).1 = some d ∧
      (PYXXH64_digest XXH64 h1 (PYXXH64_update XXH64 h2 [122] w2)).1 = some d)) :=
  ⟨by decide, by decide,
    copy_equal_independent XXH32 XXH64 9 [97, 98] [[99], [100, 101]] [122]
      (World.boot XXH32 2) (World.boot XXH64 2) (by decide) (by decide)⟩


/-! ## The hexdigest loops -/

theorem and_0xf (x : Nat) : x &&& 0xf = x % 16 :=
  Nat.and_pow_two_sub_one_eq_mod x 4

theorem hex_loop32_step (k d : Nat) (out : List Nat) :
    hex_loop32 (k + 1) d out =
      hex_loop32 k (d * 256 % 2 ^ 32)
        (out ++ [hexchar (d / 2 ^ 28 % 16), hexchar (d / 2 ^ 24 % 16)]) := by
  simp only [hex_loop32, and_0xf, Nat.shiftRight_eq_div_pow, Nat.shiftLeft_eq,
    List.append_assoc, List.singleton_append]

theorem hex_loop64_step (k d : Nat) (out : List Nat) :
    hex_loop64 (k + 1) d out =
      hex_loop64 k (d * 256 % 2 ^ 64)
        (out ++ [hexchar (d / 2 ^ 60 % 16), hexchar (d / 2 ^ 56 % 16)]) := by
  simp only [hex_loop64, and_0xf, Nat.shiftRight_eq_div_pow, Nat.shiftLeft_eq,
    List.append_assoc, List.singleton_append]

/-- The eight characters of the 32-bit loop: character `i` is made from the
nibble `d / 16 ^ (7 - i) % 16`. -/
theorem hex_loop32_eq (d : Nat) :
    hex_loop32 4 d [] =
      [hexchar (d / 16 ^ 7 % 16), hexchar (d / 16 ^ 6 % 16), hexchar (d / 16 ^ 5 % 16),
        hexchar (d / 16 ^ 4 % 16), hexchar (d / 16 ^ 3 % 16), hexchar (d / 16 ^ 2 % 16),
        hexchar (d / 16 ^ 1 % 16), hexchar (d / 16 ^ 0 % 16)] := by
  simp only [hex_loop32_step]
  simp only [hex_loop32, List.nil_append, List.cons_append]
  norm_num
  refine ⟨?_, ?_, ?_, ?_, ?_, ?_⟩ <;> congr 1 <;> omega

/-- The sixteen characters of the 64-bit loop. -/
theorem hex_loop64_eq (d : Nat) :
    hex_loop64 8 d [] =
      [hexchar (d / 16 ^ 15 % 16), hexchar (d / 16 ^ 14 % 16), hexchar (d / 16 ^ 13 % 16),
        hexchar (d / 16 ^ 12 % 16), hexchar (d / 16 ^ 11 % 16), hexchar (d / 16 ^ 10 % 16),
        hexchar (d / 16 ^ 9 % 16), hexchar (d / 16 ^ 8 % 16), hexchar (d / 16 ^ 7 % 16),
        hexchar (d / 16 ^ 6 % 16), hexchar (d / 16 ^ 5 % 16), hexchar (d / 16 ^ 4 % 16),
        hexchar (d / 16 ^ 3 % 16), hexchar (d / 16 ^ 2 % 16), hexchar (d / 16 ^ 1 % 16),
        hexchar (d / 16 ^ 0 % 16)] := by
  simp only [hex_loop64_step]
  simp only [hex_loop64, List.nil_append, List.cons_append]
  norm_num
  refine ⟨?_, ?_, ?_, ?_, ?_, ?_, ?_, ?_, ?_, ?_, ?_, ?_, ?_, ?_⟩ <;> congr 1 <;> omega

/-- The character the loop makes from a nibble is the lowercase hex digit of
the nibble. -/
theorem ofNat_hexchar : ∀ n, n < 16 → Char.ofNat (hexchar n) = Nat.digitChar n := by
  decide

theorem ofNat_hexchar_mod (x : Nat) : Char.ofNat (hexchar (x % 16)) = Nat.digitChar (x % 16) :=
  ofNat_hexchar (x % 16) (Nat.mod_lt x (by norm_num))

theorem hexchar_range : ∀ n, n < 16 →
    (48 ≤ hexchar n ∧ hexchar n ≤ 57) ∨ (97 ≤ hexchar n ∧ hexchar n ≤ 102) := by
  decide

theorem digitChar_mem : ∀ n, n < 16 → Nat.digitChar n ∈ "0123456789abcdef".data := by
  decide

theorem hexValue_digitChar : ∀ n, n < 16 → hexValue (Nat.digitChar n) = some n := by
  decide

theorem hexValue_digitChar_mod (x : Nat) : hexValue (Nat.digitChar (x % 16)) = some (x % 16) :=
  hexValue_digitChar (x % 16) (Nat.mod_lt x (by norm_num))


theorem hex_loop32_length (k : Nat) : ∀ (d : Nat) (out : List Nat),
    (hex_loop32 k d out).length = out.length + 2 * k := by
  induction k with
  | zero => intro d out; simp [hex_loop32]
  | succ k ih =>
    intro d out
    rw [hex_loop32_step, ih]
    simp
    omega

theorem hex_loop64_length (k : Nat) : ∀ (d : Nat) (out : List Nat),
    (hex_loop64 k d out).length = out.length + 2 * k := by
  induction k with
  | zero => intro d out; simp [hex_loop64]
  | succ k ih =>
    intro d out
    rw [hex_loop64_step, ih]
    simp
    omega

theorem hex_loop32_range (k : Nat) : ∀ (d : Nat) (out : List Nat),
    (∀ c ∈ out, (48 ≤ c ∧ c ≤ 57) ∨ (97 ≤ c ∧ c ≤ 102)) →
    ∀ c ∈ hex_loop32 k d out, (48 ≤ c ∧ c ≤ 57) ∨ (97 ≤ c ∧ c ≤ 102) := by
  induction k with
  | zero => intro d out hout; simpa [hex_loop32] using hout
  | succ k ih =>
    intro d out hout
    rw [hex_loop32_step]
    apply ih
    intro c hc
    rcases List.mem_append.mp hc with h | h
    · exact hout c h
    · simp only [List.mem_cons, List.mem_nil_iff, or_false] at h
      rcases h with h | h <;> subst h <;> exact hexchar_range _ (Nat.mod_lt _ (by norm_num))

theorem hex_loop64_range (k : Nat) : ∀ (d : Nat) (out : List Nat),
    (∀ c ∈ out, (48 ≤ c ∧ c ≤ 57) ∨ (97 ≤ c ∧ c ≤ 102)) →
    ∀ c ∈ hex_loop64 k d out, (48 ≤ c ∧ c ≤ 57) ∨ (97 ≤ c ∧ c ≤ 102) := by
  induction k with
  | zero => intro d out hout; simpa [hex_loop64] using hout
  | succ k ih =>
    intro d out hout
    rw [hex_loop64_step]
    apply ih
    intro c hc
    rcases List.mem_append.mp hc with h | h
    · exact hout c h
    · simp only [List.mem_cons, List.mem_nil_iff, or_false] at h
      rcases h with h | h <;> subst h <;> exact hexchar_range _ (Nat.mod_lt _ (by norm_num))

/-- The text of the 32-bit loop, digit by digit. -/
theorem pyText_hex_loop32 (d : Nat) :
    (pyText (hex_loop32 4 d [])).data =
      (List.range 8).map fun i => Nat.digitChar (d / 16 ^ (7 - i) % 16) := by
  rw [hex_loop32_eq]
  simp only [pyText, List.map_cons, List.map_nil, ofNat_hexchar_mod, List.range_succ,
    List.range_zero, List.nil_append, List.cons_append, List.map_append]

/-- The text of the 64-bit loop, digit by digit. -/
theorem pyText_hex_loop64 (d : Nat) :
    (pyText (hex_loop64 8 d [])).data =
      (List.range 16).map fun i => Nat.digitChar (d / 16 ^ (15 - i) % 16) := by
  rw [hex_loop64_eq]
  simp only [pyText, List.map_cons, List.map_nil, ofNat_hexchar_mod, List.range_succ,
    List.range_zero, List.nil_append, List.cons_append, List.map_append]

theorem nibble_high (x : Nat) : x % 256 / 16 = x / 16 % 16 := by
  omega

theorem nibble_low (x : Nat) : x % 256 % 16 = x % 16 := by
  omega

theorem hexEncode_objectBytes4 (d : Nat) :
    pyText (hex_loop32 4 d []) = hexEncode (objectBytes 4 d).reverse := by
  rw [hex_loop32_eq]
  simp only [pyText, hexEncode, objectBytes, List.map_cons, List.map_nil, ofNat_hexchar_mod,
    List.range_succ, List.range_zero, List.nil_append, List.cons_append, List.map_append,
    List.reverse_cons, List.reverse_nil, List.flatMap_cons, List.flatMap_nil,
    List.append_nil]
  simp only [nibble_high, nibble_low, Nat.div_div_eq_div_mul]
  norm_num

theorem hexEncode_objectBytes8 (d : Nat) :
    pyText (hex_loop64 8 d []) = hexEncode (objectBytes 8 d).reverse := by
  rw [hex_loop64_eq]
  simp only [pyText, hexEncode, objectBytes, List.map_cons, List.map_nil, ofNat_hexchar_mod,
    List.range_succ, List.range_zero, List.nil_append, List.cons_append, List.map_append,
    List.reverse_cons, List.reverse_nil, List.flatMap_cons, List.flatMap_nil,
    List.append_nil]
  simp only [nibble_high, nibble_low, Nat.div_div_eq_div_mul]
  norm_num

theorem div_pow_succ (d k : Nat) : d / 16 ^ (k + 1) = d / 16 ^ k / 16 := by
  rw [Nat.div_div_eq_div_mul, pow_succ]

theorem parseHex_hex_loop32 (d : Nat) (hd : d < 2 ^ 32) :
    parseHex (pyText (hex_loop32 4 d [])) = some d := by
  rw [hex_loop32_eq]
  simp only [parseHex, pyText, List.map_cons, List.map_nil, ofNat_hexchar_mod, parseHexFrom,
    hexValue_digitChar_mod, Option.some.injEq]
  norm_num at hd ⊢
  omega

theorem parseHex_hex_loop64 (d : Nat) (hd : d < 2 ^ 64) :
    parseHex (pyText (hex_loop64 8 d [])) = some d := by
  rw [hex_loop64_eq]
  simp only [parseHex, pyText, List.map_cons, List.map_nil, ofNat_hexchar_mod]
  simp only [parseHexFrom, hexValue_digitChar_mod, Option.some.injEq, div_pow_succ, pow_zero,
    Nat.div_one]
  norm_num at hd
  omega


/-! ## C5 and C6: digest and hexdigest -/

theorem PYXXH32_digest_ready (xxh : HashCore) (self : PYXXH32Object) (w : World xxh)
    (st : xxh.State) (hp : w.heap[self.xxhash_state]? = some st) :
    (PYXXH32_digest xxh self w).1 =
      some (objectBytes 4 (xxh.intermediateDigest st % 2 ^ 32)) := by
  simp only [PYXXH32_digest, XXH_intermediateDigest, hp, Option.map_some']

theorem PYXXH64_digest_ready (xxh : HashCore) (self : PYXXH64Object) (w : World xxh)
    (st : xxh.State) (hp : w.heap[self.xxhash_state]? = some st) :
    (PYXXH64_digest xxh self w).1 =
      some (objectBytes 8 (xxh.intermediateDigest st % 2 ^ 64)) := by
  simp only [PYXXH64_digest, XXH_intermediateDigest, hp, Option.map_some']

theorem PYXXH32_hex_digest_ready (xxh : HashCore) (self : PYXXH32Object) (w : World xxh)
    (st : xxh.State) (hp : w.heap[self.xxhash_state]? = some st) :
    (PYXXH32_hex_digest xxh self w).1 =
      some (pyText (hex_loop32 4 (xxh.intermediateDigest st % 2 ^ 32) [])) := by
  simp only [PYXXH32_hex_digest, XXH_intermediateDigest, hp, Option.map_some']

theorem PYXXH64_hex_digest_ready (xxh : HashCore) (self : PYXXH64Object) (w : World xxh)
    (st : xxh.State) (hp : w.heap[self.xxhash_state]? = some st) :
    (PYXXH64_hex_digest xxh self.cast w).1 =
      some (pyText (hex_loop64 8 (xxh.intermediateDigest st % 2 ^ 64) [])) := by
  simp only [PYXXH64_hex_digest, PYXXH64Object.cast, XXH_intermediateDigest, hp,
    Option.map_some']

/-- C5. For every hasher whose state block exists (every constructed hasher),
`digest()` is the digest integer in little-endian byte order, and
`hexdigest()` is the lowercase hex encoding of those same bytes taken in
reverse order, most significant byte first; for `XXH32` and `XXH64`. The
example of the module doc: the bytes f1 8b 37 8a 3c a8 ce fb go with the text
fbcea83c8a378bf1. -/
theorem hexdigest_consistent (c32 c64 : HashCore)
    (w32 : World c32) (h32 : PYXXH32Object) (st32 : c32.State)
    (hp32 : w32.heap[h32.xxhash_state]? = some st32)
    (w64 : World c64) (h64 : PYXXH64Object) (st64 : c64.State)
    (hp64 : w64.heap[h64.xxhash_state]? = some st64) :
    (∃ d t, (PYXXH32_digest c32 h32 w32).1 = some d ∧
        (PYXXH32_hex_digest c32 h32 w32).1 = some t ∧
        d = objectBytes 4 (c32.intermediateDigest st32 % 2 ^ 32) ∧
        littleEndian d = c32.intermediateDigest st32 % 2 ^ 32 ∧
        t = hexEncode d.reverse) ∧
    (∃ d t, (PYXXH64_digest c64 h64 w64).1 = some d ∧
        (PYXXH64_hex_digest c64 h64.cast w64).1 = some t ∧
        d = objectBytes 8 (c64.intermediateDigest st64 % 2 ^ 64) ∧
        littleEndian d = c64.intermediateDigest st64 % 2 ^ 64 ∧
        t = hexEncode d.reverse) ∧
    hexEncode [0xf1, 0x8b, 0x37, 0x8a, 0x3c, 0xa8, 0xce, 0xfb].reverse =
      "fbcea83c8a378bf1" := by
  refine ⟨⟨_, _, PYXXH32_digest_ready c32 h32 w32 st32 hp32,
      PYXXH32_hex_digest_ready c32 h32 w32 st32 hp32, rfl,
      littleEndian_objectBytes4 _ (Nat.mod_lt _ (by norm_num)),
      hexEncode_objectBytes4 _⟩,
    ⟨_, _, PYXXH64_digest_ready c64 h64 w64 st64 hp64,
      PYXXH64_hex_digest_ready c64 h64 w64 st64 hp64, rfl,
      littleEndian_objectBytes8 _ (Nat.mod_lt _ (by norm_num)),
      hexEncode_objectBytes8 _⟩, by decide⟩

/-- Witness of C5: a block holding the reference state that absorbed "abc". -/
theorem hexdigest_consistent_witness :
    (∃ d t, (PYXXH32_digest XXH32 ⟨0⟩ ⟨[XXH32.update (XXH32.init 0) [97, 98, 99]], 0, []⟩).1
          = some d ∧
        (PYXXH32_hex_digest XXH32 ⟨0⟩
          ⟨[XXH32.update (XXH32.init 0) [97, 98, 99]], 0, []⟩).1 = some t ∧
        d = objectBytes 4
          (XXH32.intermediateDigest (XXH32.update (XXH32.init 0) [97, 98, 99]) % 2 ^ 32) ∧
        littleEndian d =
          XXH32.intermediateDigest (XXH32.update (XXH32.init 0) [97, 98, 99]) % 2 ^ 32 ∧
        t = hexEncode d.reverse) ∧
    (∃ d t, (PYXXH64_digest XXH64 ⟨0⟩ ⟨[XXH64.update (XXH64.init 0) [97, 98, 99]], 0, []⟩).1
          = some d ∧
        (PYXXH64_hex_digest XXH64 (PYXXH64Object.cast ⟨0⟩)
          ⟨[XXH64.update (XXH64.init 0) [97, 98, 99]], 0, []⟩).1 = some t ∧
        d = objectBytes 8
          (XXH64.intermediateDigest (XXH64.update (XXH64.init 0) [97, 98, 99]) % 2 ^ 64) ∧
        littleEndian d =
          XXH64.intermediateDigest (XXH64.update (XXH64.init 0) [97, 98, 99]) % 2 ^ 64 ∧
        t = hexEncode d.reverse) ∧
    hexEncode [0xf1, 0x8b, 0x37, 0x8a, 0x3c, 0xa8, 0xce, 0xfb].reverse =
      "fbcea83c8a378bf1" :=
  hexdigest_consistent XXH32 XXH64
    ⟨[XXH32.update (XXH32.init 0) [97, 98, 99]], 0, []⟩ ⟨0⟩ _ rfl
    ⟨[XXH64.update (XXH64.init 0) [97, 98, 99]], 0, []⟩ ⟨0⟩ _ rfl

/-- C6. For every 32-bit digest value `d32` and 64-bit value `d64`, the text
of the hexdigest loop has exactly 8 (resp. 16) characters, each one of 0-9 or
a-f, it is the zero-padded base-16 representation of the value with the most
significant nibble first, and parsing it as a base-16 number gives the value
back. -/
theorem hexdigest_format (d32 d64 : Nat) (hd32 : d32 < 2 ^ 32) (hd64 : d64 < 2 ^ 64) :
    ((hex_loop32 4 d32 []).length = 8 ∧
      (pyText (hex_loop32 4 d32 [])).length = 8 ∧
      (∀ c ∈ hex_loop32 4 d32 [], (48 ≤ c ∧ c ≤ 57) ∨ (97 ≤ c ∧ c ≤ 102)) ∧
      (∀ ch ∈ (pyText (hex_loop32 4 d32 [])).data, ch ∈ "0123456789abcdef".data) ∧
      (pyText (hex_loop32 4 d32 [])).data =
        (List.range 8).map (fun i => Nat.digitChar (d32 / 16 ^ (7 - i) % 16)) ∧
      parseHex (pyText (hex_loop32 4 d32 [])) = some d32) ∧
    ((hex_loop64 8 d64 []).length = 16 ∧
      (pyText (hex_loop64 8 d64 [])).length = 16 ∧
      (∀ c ∈ hex_loop64 8 d64 [], (48 ≤ c ∧ c ≤ 57) ∨ (97 ≤ c ∧ c ≤ 102)) ∧
      (∀ ch ∈ (pyText (hex_loop64 8 d64 [])).data, ch ∈ "0123456789abcdef".data) ∧
      (pyText (hex_loop64 8 d64 [])).data =
        (List.range 16).map (fun i => Nat.digitChar (d64 / 16 ^ (15 - i) % 16)) ∧
      parseHex (pyText (hex_loop64 8 d64 [])) = some d64) := by
  refine ⟨⟨?_, ?_, ?_, ?_, pyText_hex_loop32 d32, parseHex_hex_loop32 d32 hd32⟩,
    ⟨?_, ?_, ?_, ?_, pyText_hex_loop64 d64, parseHex_hex_loop64 d64 hd64⟩⟩
  · rw [hex_loop32_length]
    rfl
  · simp [String.length, pyText, hex_loop32_length]
  · exact hex_loop32_range 4 d32 [] (by simp)
  · intro ch hch
    rw [pyText_hex_loop32] at hch
    obtain ⟨i, _, hi⟩ := List.mem_map.mp hch
    rw [← hi]
    exact digitChar_mem _ (Nat.mod_lt _ (by norm_num))
  · rw [hex_loop64_length]
    rfl
  · simp [String.length, pyText, hex_loop64_length]
  · exact hex_loop64_range 8 d64 [] (by simp)
  · intro ch hch
    rw [pyText_hex_loop64] at hch
    obtain ⟨i, _, hi⟩ := List.mem_map.mp hch
    rw [← hi]
    exact digitChar_mem _ (Nat.mod_lt _ (by norm_num))

/-- Witness of C6: a 32-bit value with leading zero nibbles and the 64-bit
value of the module doc. -/
theorem hexdigest_format_witness :
    (46947589 < 2 ^ 32 ∧ 18144624926692707313 < 2 ^ 64) ∧
    pyText (hex_loop32 4 46947589 []) = "02cc5d05" ∧
    pyText (hex_loop64 8 18144624926692707313 []) = "fbcea83c8a378bf1" ∧
    ((hex_loop32 4 46947589 []).length = 8 ∧
      (pyText (hex_loop32 4 46947589 [])).length = 8 ∧
      (∀ c ∈ hex_loop32 4 46947589 [], (48 ≤ c ∧ c ≤ 57) ∨ (97 ≤ c ∧ c ≤ 102)) ∧
      (∀ ch ∈ (pyText (hex_loop32 4 46947589 [])).data, ch ∈ "0123456789abcdef".data) ∧
      (pyText (hex_loop32 4 46947589 [])).data =
        (List.range 8).map (fun i => Nat.digitChar (46947589 / 16 ^ (7 - i) % 16)) ∧
      parseHex (pyText (hex_loop32 4 46947589 [])) = some 46947589) ∧
    ((hex_loop64 8 18144624926692707313 []).length = 16 ∧
      (pyText (hex_loop64 8 18144624926692707313 [])).length = 16 ∧
      (∀ c ∈ hex_loop64 8 18144624926692707313 [],
        (48 ≤ c ∧ c ≤ 57) ∨ (97 ≤ c ∧ c ≤ 102)) ∧
      (∀ ch ∈ (pyText (hex_loop64 8 18144624926692707313 [])).data,
        ch ∈ "0123456789abcdef".data) ∧
      (pyText (hex_loop64 8 18144624926692707313 [])).data =
        (List.range 16).map
          (fun i => Nat.digitChar (18144624926692707313 / 16 ^ (15 - i) % 16)) ∧
      parseHex (pyText (hex_loop64 8 18144624926692707313 [])) =
        some 18144624926692707313) :=
  ⟨⟨by norm_num, by norm_num⟩, by decide, by decide,
    hexdigest_format 46947589 18144624926692707313 (by norm_num) (by norm_num)⟩


/-! ## C7 and C8: construction with initial data -/

theorem PYXXH32_init_fail (xxh : HashCore) (view : List Nat) (seed : Nat) (w : World xxh)
    (hroom : w.room = 0) :
    PYXXH32_init xxh view seed w =
      (Except.error PyErr.MemoryError,
        { w with calls := w.calls ++ [CoreCall.init seed] }) := by
  simp [PYXXH32_init, XXH_init_fail xxh seed w hroom]

theorem PYXXH64_init_fail (xxh : HashCore) (view : List Nat) (seed : Nat) (w : World xxh)
    (hroom : w.room = 0) :
    PYXXH64_init xxh view seed w =
      (Except.error PyErr.MemoryError,
        { w with calls := w.calls ++ [CoreCall.init seed] }) := by
  simp [PYXXH64_init, XXH_init_fail xxh seed w hroom]

/-- The world a successful construction leaves: one more block, which has
absorbed the segments of the initial data, and the calls that did it. -/
theorem constructed_world (xxh : HashCore) (view : List Nat) (seed : Nat) (w : World xxh) :
    (feed xxh w.heap.length view.length view
        { heap := w.heap ++ [xxh.init seed], room := w.room - 1,
          calls := w.calls ++ [CoreCall.init seed] }).heap =
      w.heap ++ [(segments view).foldl xxh.update (xxh.init seed)] ∧
    (feed xxh w.heap.length view.length view
        { heap := w.heap ++ [xxh.init seed], room := w.room - 1,
          calls := w.calls ++ [CoreCall.init seed] }).calls =
      w.calls ++ CoreCall.init seed :: (segments view).map (CoreCall.update w.heap.length) := by
  constructor
  · have h := constructed_heap xxh seed view [] w
    simpa using h
  · rw [feed_calls]
    simp

theorem segments_replicate :
    segments (List.replicate 1073741825 0) = [List.replicate 1073741824 0, [0]] := by
  have hlen : (List.replicate 1073741825 0).length > 1073741824 := by
    rw [List.length_replicate]
    norm_num
  have htake : (List.replicate 1073741825 0).take 1073741824 = List.replicate 1073741824 0 := by
    rw [List.take_replicate]
    rfl
  have hdrop : (List.replicate 1073741825 0).drop 1073741824 = [0] := by
    rw [List.drop_replicate]
    rfl
  rw [segments_large _ hlen, htake, hdrop, segments_small [0] (by simp) (by simp)]

/-- Counterexample to C7 as stated: constructing `XXH32` or `XXH64` on a
buffer of 1073741825 bytes does not fail. It returns the new object, and the
core has absorbed the buffer in two calls. -/
theorem construct_oversize_succeeds :
    (List.replicate 1073741825 0).length > 1073741824 ∧
    (PYXXH32_init XXH32 (List.replicate 1073741825 0) 0 (World.boot XXH32 1)).1 =
      Except.ok ⟨0⟩ ∧
    (PYXXH32_init XXH32 (List.replicate 1073741825 0) 0 (World.boot XXH32 1)).1 ≠
      Except.error PyErr.ValueError ∧
    (PYXXH32_init XXH32 (List.replicate 1073741825 0) 0 (World.boot XXH32 1)).2.calls =
      [CoreCall.init 0, CoreCall.update 0 (List.replicate 1073741824 0),
        CoreCall.update 0 [0]] ∧
    (PYXXH64_init XXH64 (List.replicate 1073741825 0) 0 (World.boot XXH64 1)).1 =
      Except.ok ⟨0⟩ ∧
    (PYXXH64_init XXH64 (List.replicate 1073741825 0) 0 (World.boot XXH64 1)).1 ≠
      Except.error PyErr.ValueError ∧
    (PYXXH64_init XXH64 (List.replicate 1073741825 0) 0 (World.boot XXH64 1)).2.calls =
      [CoreCall.init 0, CoreCall.update 0 (List.replicate 1073741824 0),
        CoreCall.update 0 [0]] := by
  have hlen : (List.replicate 1073741825 0).length > 1073741824 := by
    rw [List.length_replicate]
    norm_num
  have h32 := PYXXH32_init_ok XXH32 (List.replicate 1073741825 0) 0 (World.boot XXH32 1)
    (by decide)
  have h64 := PYXXH64_init_ok XXH64 (List.replicate 1073741825 0) 0 (World.boot XXH64 1)
    (by decide)
  have c32 := (constructed_world XXH32 (List.replicate 1073741825 0) 0 (World.boot XXH32 1)).2
  have c64 := (constructed_world XXH64 (List.replicate 1073741825 0) 0 (World.boot XXH64 1)).2
  rw [segments_replicate] at c32 c64
  refine ⟨hlen, ?_, ?_, ?_, ?_, ?_, ?_⟩
  · rw [h32]
    rfl
  · rw [h32]
    simp
  · rw [h32]
    exact c32
  · rw [h64]
    rfl
  · rw [h64]
    simp
  · rw [h64]
    exact c64

/-- C7, amended. Constructing `XXH32` or `XXH64` on an initial-data buffer of
any length, more than 1073741824 bytes included, never reports the
input-too-large error. When the state block can be allocated the construction
succeeds and the core has absorbed the whole buffer, segment by segment; when
it cannot, the error is `MemoryError`, no absorb call has been made and no
block has changed. -/
theorem construct_any_length (c32 c64 : HashCore) (view : List Nat) (seed : Nat)
    (w32 : World c32) (w64 : World c64) :
    ((PYXXH32_init c32 view seed w32).1 ≠ Except.error PyErr.ValueError ∧
      (0 < w32.room →
        (PYXXH32_init c32 view seed w32).1 = Except.ok ⟨w32.heap.length⟩ ∧
        (PYXXH32_init c32 view seed w32).2.heap =
          w32.heap ++ [(segments view).foldl c32.update (c32.init seed)] ∧
        (PYXXH32_init c32 view seed w32).2.calls =
          w32.calls ++
            CoreCall.init seed :: (segments view).map (CoreCall.update w32.heap.length)) ∧
      (w32.room = 0 →
        (PYXXH32_init c32 view seed w32).1 = Except.error PyErr.MemoryError ∧
        (PYXXH32_init c32 view seed w32).2.heap = w32.heap ∧
        (PYXXH32_init c32 view seed w32).2.calls = w32.calls ++ [CoreCall.init seed])) ∧
    ((PYXXH64_init c64 view seed w64).1 ≠ Except.error PyErr.ValueError ∧
      (0 < w64.room →
        (PYXXH64_init c64 view seed w64).1 = Except.ok ⟨w64.heap.length⟩ ∧
        (PYXXH64_init c64 view seed w64).2.heap =
          w64.heap ++ [(segments view).foldl c64.update (c64.init seed)] ∧
        (PYXXH64_init c64 view seed w64).2.calls =
          w64.calls ++
            CoreCall.init seed :: (segments view).map (CoreCall.update w64.heap.length)) ∧
      (w64.room = 0 →
        (PYXXH64_init c64 view seed w64).1 = Except.error PyErr.MemoryError ∧
        (PYXXH64_init c64 view seed w64).2.heap = w64.heap ∧
        (PYXXH64_init c64 view seed w64).2.calls = w64.calls ++ [CoreCall.init seed])) := by
  constructor
  · refine ⟨?_, ?_, ?_⟩
    · by_cases hroom : w32.room = 0
      · rw [PYXXH32_init_fail c32 view seed w32 hroom]
        simp
      · rw [PYXXH32_init_ok c32 view seed w32 (by omega)]
        simp
    · intro hroom
      rw [PYXXH32_init_ok c32 view seed w32 hroom]
      exact ⟨rfl, constructed_world c32 view seed w32⟩
    · intro hroom
      rw [PYXXH32_init_fail c32 view seed w32 hroom]
      exact ⟨rfl, rfl, rfl⟩
  · refine ⟨?_, ?_, ?_⟩
    · by_cases hroom : w64.room = 0
      · rw [PYXXH64_init_fail c64 view seed w64 hroom]
        simp
      · rw [PYXXH64_init_ok c64 view seed w64 (by omega)]
        simp
    · intro hroom
      rw [PYXXH64_init_ok c64 view seed w64 hroom]
      exact ⟨rfl, constructed_world c64 view seed w64⟩
    · intro hroom
      rw [PYXXH64_init_fail c64 view seed w64 hroom]
      exact ⟨rfl, rfl, rfl⟩


/-- C8. Construction with initial data is construction followed by update:
for every seed and buffer, when the state block can be allocated,
`construct(seed, d)` returns the same object and leaves the same world as
`construct(seed)` followed by `update(d)`; and `construct(seed)` alone leaves
the block holding the freshly seeded state `init(seed)`, which is also what
construction on the empty buffer gives. For `XXH32` and `XXH64`. -/
theorem construct_is_update (c32 c64 : HashCore) (seed : Nat) (d : List Nat)
    (w32 : World c32) (w64 : World c64) (r32 : 0 < w32.room) (r64 : 0 < w64.room) :
    (∃ h w0, PYXXH32_init c32 [] seed w32 = (Except.ok h, w0) ∧
        PYXXH32_init c32 d seed w32 = (Except.ok h, PYXXH32_update c32 h d w0) ∧
        w0.heap = w32.heap ++ [c32.init seed] ∧
        w0.heap[h.xxhash_state]? = some (c32.init seed) ∧
        (PYXXH32_update c32 h [] w0).heap[h.xxhash_state]? = some (c32.init seed)) ∧
    (∃ h w0, PYXXH64_init c64 [] seed w64 = (Except.ok h, w0) ∧
        PYXXH64_init c64 d seed w64 = (Except.ok h, PYXXH64_update c64 h d w0) ∧
        w0.heap = w64.heap ++ [c64.init seed] ∧
        w0.heap[h.xxhash_state]? = some (c64.init seed) ∧
        (PYXXH64_update c64 h [] w0).heap[h.xxhash_state]? = some (c64.init seed)) := by
  constructor
  · refine ⟨⟨w32.heap.length⟩,
      { heap := w32.heap ++ [c32.init seed], room := w32.room - 1,
        calls := w32.calls ++ [CoreCall.init seed] }, ?_, ?_, rfl, by simp, ?_⟩
    · rw [PYXXH32_init_ok c32 [] seed w32 r32, XXH_init_nil_feed]
    · rw [PYXXH32_init_ok c32 d seed w32 r32]
      rfl
    · simp [PYXXH32_update, feed_zero]
  · refine ⟨⟨w64.heap.length⟩,
      { heap := w64.heap ++ [c64.init seed], room := w64.room - 1,
        calls := w64.calls ++ [CoreCall.init seed] }, ?_, ?_, rfl, by simp, ?_⟩
    · rw [PYXXH64_init_ok c64 [] seed w64 r64, XXH_init_nil_feed]
    · rw [PYXXH64_init_ok c64 d seed w64 r64]
      rfl
    · simp [PYXXH64_update, feed_zero]

/-- Witness of C8: the reference cores, seed 3, initial data "hi". -/
theorem construct_is_update_witness :
    0 < (World.boot XXH32 1).room ∧ 0 < (World.boot XXH64 1).room ∧
    ((∃ h w0, PYXXH32_init XXH32 [] 3 (World.boot XXH32 1) = (Except.ok h, w0) ∧
        PYXXH32_init XXH32 [104, 105] 3 (World.boot XXH32 1) =
          (Except.ok h, PYXXH32_update XXH32 h [104, 105] w0) ∧
        w0.heap = (World.boot XXH32 1).heap ++ [XXH32.init 3] ∧
        w0.heap[h.xxhash_state]? = some (XXH32.init 3) ∧
        (PYXXH32_update XXH32 h [] w0).heap[h.xxhash_state]? = some (XXH32.init 3)) ∧
     (∃ h w0, PYXXH64_init XXH64 [] 3 (World.boot XXH64 1) = (Except.ok h, w0) ∧
        PYXXH64_init XXH64 [104, 105] 3 (World.boot XXH64 1) =
          (Except.ok h, PYXXH64_update XXH64 h [104, 105] w0) ∧
        w0.heap = (World.boot XXH64 1).heap ++ [XXH64.init 3] ∧
        w0.heap[h.xxhash_state]? = some (XXH64.init 3) ∧
        (PYXXH64_update XXH64 h [] w0).heap[h.xxhash_state]? = some (XXH64.init 3))) :=
  ⟨by decide, by decide,
    construct_is_update XXH32 XXH64 3 [104, 105] (World.boot XXH32 1) (World.boot XXH64 1)
      (by decide) (by decide)⟩

/-! ## C9: digest and hexdigest are reads -/

/-- C9. `digest()` and `hexdigest()` are pure reads: on every hasher whose
state block exists they leave every block and the allocator as they were, so
either can be called again, after itself or after the other, with the same
result, and the digest after `digest(); update(x)` (or after
`hexdigest(); update(x)`) is the digest after `update(x)` alone. For `XXH32`
and `XXH64`. -/
theorem digest_is_read (c32 c64 : HashCore) (x : List Nat)
    (w32 : World c32) (h32 : PYXXH32Object) (st32 : c32.State)
    (hp32 : w32.heap[h32.xxhash_state]? = some st32)
    (w64 : World c64) (h64 : PYXXH64Object) (st64 : c64.State)
    (hp64 : w64.heap[h64.xxhash_state]? = some st64) :
    ((PYXXH32_digest c32 h32 w32).2.heap = w32.heap ∧
      (PYXXH32_digest c32 h32 w32).2.room = w32.room ∧
      (PYXXH32_hex_digest c32 h32 w32).2.heap = w32.heap ∧
      (PYXXH32_hex_digest c32 h32 w32).2.room = w32.room ∧
      (∃ d, (PYXXH32_digest c32 h32 w32).1 = some d ∧
        (PYXXH32_digest c32 h32 (PYXXH32_digest c32 h32 w32).2).1 = some d ∧
        (PYXXH32_digest c32 h32 (PYXXH32_hex_digest c32 h32 w32).2).1 = some d) ∧
      (∃ t, (PYXXH32_hex_digest c32 h32 w32).1 = some t ∧
        (PYXXH32_hex_digest c32 h32 (PYXXH32_hex_digest c32 h32 w32).2).1 = some t ∧
        (PYXXH32_hex_digest c32 h32 (PYXXH32_digest c32 h32 w32).2).1 = some t) ∧
      (∃ d, (PYXXH32_digest c32 h32 (PYXXH32_update c32 h32 x w32)).1 = some d ∧
        (PYXXH32_digest c32 h32
          (PYXXH32_update c32 h32 x (PYXXH32_digest c32 h32 w32).2)).1 = some d ∧
        (PYXXH32_digest c32 h32
          (PYXXH32_update c32 h32 x (PYXXH32_hex_digest c32 h32 w32).2)).1 = some d)) ∧
    ((PYXXH64_digest c64 h64 w64).2.heap = w64.heap ∧
      (PYXXH64_digest c64 h64 w64).2.room = w64.room ∧
      (PYXXH64_hex_digest c64 h64.cast w64).2.heap = w64.heap ∧
      (PYXXH64_hex_digest c64 h64.cast w64).2.room = w64.room ∧
      (∃ d, (PYXXH64_digest c64 h64 w64).1 = some d ∧
        (PYXXH64_digest c64 h64 (PYXXH64_digest c64 h64 w64).2).1 = some d ∧
        (PYXXH64_digest c64 h64 (PYXXH64_hex_digest c64 h64.cast w64).2).1 = some d) ∧
      (∃ t, (PYXXH64_hex_digest c64 h64.cast w64).1 = some t ∧
        (PYXXH64_hex_digest c64 h64.cast (PYXXH64_hex_digest c64 h64.cast w64).2).1 = some t ∧
        (PYXXH64_hex_digest c64 h64.cast (PYXXH64_digest c64 h64 w64).2).1 = some t) ∧
      (∃ d, (PYXXH64_digest c64 h64 (PYXXH64_update c64 h64 x w64)).1 = some d ∧
        (PYXXH64_digest c64 h64
          (PYXXH64_update c64 h64 x (PYXXH64_digest c64 h64 w64).2)).1 = some d ∧
        (PYXXH64_digest c64 h64
          (PYXXH64_update c64 h64 x (PYXXH64_hex_digest c64 h64.cast w64).2)).1 = some d)) := by
  constructor
  · have g1 : (PYXXH32_digest c32 h32 w32).2.heap[h32.xxhash_state]? = some st32 := hp32
    have g2 : (PYXXH32_hex_digest c32 h32 w32).2.heap[h32.xxhash_state]? = some st32 := hp32
    refine ⟨rfl, rfl, rfl, rfl, ⟨_, PYXXH32_digest_ready c32 h32 w32 st32 hp32,
        PYXXH32_digest_ready c32 h32 _ st32 g1, PYXXH32_digest_ready c32 h32 _ st32 g2⟩,
      ⟨_, PYXXH32_hex_digest_ready c32 h32 w32 st32 hp32,
        PYXXH32_hex_digest_ready c32 h32 _ st32 g2,
        PYXXH32_hex_digest_ready c32 h32 _ st32 g1⟩,
      ⟨_, PYXXH32_digest_ready c32 h32 _ _ (feed_heap_get c32 _ x w32 st32 hp32), ?_, ?_⟩⟩
    · exact PYXXH32_digest_ready c32 h32 _ _ (feed_heap_get c32 _ x _ st32 g1)
    · exact PYXXH32_digest_ready c32 h32 _ _ (feed_heap_get c32 _ x _ st32 g2)
  · have g1 : (PYXXH64_digest c64 h64 w64).2.heap[h64.xxhash_state]? = some st64 := hp64
    have g2 : (PYXXH64_hex_digest c64 h64.cast w64).2.heap[h64.xxhash_state]? = some st64 :=
      hp64
    refine ⟨rfl, rfl, rfl, rfl, ⟨_, PYXXH64_digest_ready c64 h64 w64 st64 hp64,
        PYXXH64_digest_ready c64 h64 _ st64 g1, PYXXH64_digest_ready c64 h64 _ st64 g2⟩,
      ⟨_, PYXXH64_hex_digest_ready c64 h64 w64 st64 hp64,
        PYXXH64_hex_digest_ready c64 h64 _ st64 g2,
        PYXXH64_hex_digest_ready c64 h64 _ st64 g1⟩,
      ⟨_, PYXXH64_digest_ready c64 h64 _ _ (feed_heap_get c64 _ x w64 st64 hp64), ?_, ?_⟩⟩
    · exact PYXXH64_digest_ready c64 h64 _ _ (feed_heap_get c64 _ x _ st64 g1)
    · exact PYXXH64_digest_ready c64 h64 _ _ (feed_heap_get c64 _ x _ st64 g2)

/-- Witness of C9: freshly seeded blocks of the reference cores and the
buffer "x"; the part of the conclusion on `digest(); update(x)`. -/
theorem digest_is_read_witness :
    (⟨[XXH32.init 1], 0, []⟩ : World XXH32).heap[0]? = some (XXH32.init 1) ∧
    (⟨[XXH64.init 1], 0, []⟩ : World XXH64).heap[0]? = some (XXH64.init 1) ∧
    (∃ d,
      (PYXXH32_digest XXH32 ⟨0⟩
        (PYXXH32_update XXH32 ⟨0⟩ [120] ⟨[XXH32.init 1], 0, []⟩)).1 = some d ∧
      (PYXXH32_digest XXH32 ⟨0⟩
        (PYXXH32_update XXH32 ⟨0⟩ [120]
          (PYXXH32_digest XXH32 ⟨0⟩ ⟨[XXH32.init 1], 0, []⟩).2)).1 = some d ∧
      (PYXXH32_digest XXH32 ⟨0⟩
        (PYXXH32_update XXH32 ⟨0⟩ [120]
          (PYXXH32_hex_digest XXH32 ⟨0⟩ ⟨[XXH32.init 1], 0, []⟩).2)).1 = some d) ∧
    (∃ d,
      (PYXXH64_digest XXH64 ⟨0⟩
        (PYXXH64_update XXH64 ⟨0⟩ [120] ⟨[XXH64.init 1], 0, []⟩)).1 = some d ∧
      (PYXXH64_digest XXH64 ⟨0⟩
        (PYXXH64_update XXH64 ⟨0⟩ [120]
          (PYXXH64_digest XXH64 ⟨0⟩ ⟨[XXH64.init 1], 0, []⟩).2)).1 = some d ∧
      (PYXXH64_digest XXH64 ⟨0⟩
        (PYXXH64_update XXH64 ⟨0⟩ [120]
          (PYXXH64_hex_digest XXH64 (PYXXH64Object.cast ⟨0⟩)
            ⟨[XXH64.init 1], 0, []⟩).2)).1 = some d) :=
  ⟨rfl, rfl,
    (digest_is_read XXH32 XXH64 [120] ⟨[XXH32.init 1], 0, []⟩ ⟨0⟩ _ rfl
      ⟨[XXH64.init 1], 0, []⟩ ⟨0⟩ _ rfl).1.2.2.2.2.2.2,
    (digest_is_read XXH32 XXH64 [120] ⟨[XXH32.init 1], 0, []⟩ ⟨0⟩ _ rfl
      ⟨[XXH64.init 1], 0, []⟩ ⟨0⟩ _ rfl).2.2.2.2.2.2.2⟩

/-! ## C10: the known vector -/

set_option maxRecDepth 100000 in
/-- The reference XXH64 digest of the text of the module doc, absorbed in one
piece. -/
theorem XXH64_spam :
    XXH64.intermediateDigest
        (XXH64.update (XXH64.init 0) (asciiBytes "Nobody inspects the spammish repetition")) =
      18144624926692707313 := by
  decide

set_option maxRecDepth 100000 in
/-- The reference XXH64 digest of the text of the module doc, absorbed in the
two pieces of the module doc. -/
theorem XXH64_spam_split :
    XXH64.intermediateDigest
        (XXH64.update (XXH64.update (XXH64.init 0) (asciiBytes "Nobody inspects"))
          (asciiBytes " the spammish repetition")) =
      18144624926692707313 := by
  decide

theorem spam_hex : pyText (hex_loop64 8 (18144624926692707313 % 2 ^ 64) []) =
    "fbcea83c8a378bf1" := by
  decide

theorem spam_bytes : objectBytes 8 (18144624926692707313 % 2 ^ 64) =
    [0xf1, 0x8b, 0x37, 0x8a, 0x3c, 0xa8, 0xce, 0xfb] := by
  decide

theorem segments_spam :
    segments (asciiBytes "Nobody inspects the spammish repetition") =
      [asciiBytes "Nobody inspects the spammish repetition"] :=
  segments_small _ (by decide) (by decide)

theorem segments_spam1 :
    segments (asciiBytes "Nobody inspects") = [asciiBytes "Nobody inspects"] :=
  segments_small _ (by decide) (by decide)

theorem segments_spam2 :
    segments (asciiBytes " the spammish repetition") =
      [asciiBytes " the spammish repetition"] :=
  segments_small _ (by decide) (by decide)

/-- The two outputs of an `XXH64` object whose block holds a state with the
digest of the module doc. -/
theorem spam_outputs (self : PYXXH64Object) (w : World XXH64) (st : XXH64.State)
    (hp : w.heap[self.xxhash_state]? = some st)
    (hd : XXH64.intermediateDigest st = 18144624926692707313) :
    (PYXXH64_hex_digest XXH64 self.cast w).1 = some "fbcea83c8a378bf1" ∧
    (PYXXH64_digest XXH64 self w).1 = some [0xf1, 0x8b, 0x37, 0x8a, 0x3c, 0xa8, 0xce, 0xfb] := by
  rw [PYXXH64_hex_digest_ready XXH64 self w st hp, PYXXH64_digest_ready XXH64 self w st hp, hd,
    spam_hex, spam_bytes]
  exact ⟨rfl, rfl⟩

/-- C10. The known vector, on the reference XXH64 core: for the 39-byte text
"Nobody inspects the spammish repetition" and seed 0, `xxh64` returns
18144624926692707313, and an `XXH64` object given the text (to the
constructor, to one `update`, or as "Nobody inspects" then
" the spammish repetition") has `hexdigest()` fbcea83c8a378bf1 and `digest()`
bytes f1 8b 37 8a 3c a8 ce fb. -/
theorem known_vector (w : World XXH64) (hroom : 0 < w.room) :
    (asciiBytes "Nobody inspects the spammish repetition").length = 39 ∧
    (xxh64 XXH64 (asciiBytes "Nobody inspects the spammish repetition") 0 w).1 =
      Except.ok 18144624926692707313 ∧
    (∃ h w1,
      PYXXH64_init XXH64 (asciiBytes "Nobody inspects the spammish repetition") 0 w =
        (Except.ok h, w1) ∧
      (PYXXH64_hex_digest XXH64 h.cast w1).1 = some "fbcea83c8a378bf1" ∧
      (PYXXH64_digest XXH64 h w1).1 = some [0xf1, 0x8b, 0x37, 0x8a, 0x3c, 0xa8, 0xce, 0xfb]) ∧
    (∃ h w1, PYXXH64_init XXH64 [] 0 w = (Except.ok h, w1) ∧
      (PYXXH64_hex_digest XXH64 h.cast
        (PYXXH64_update XXH64 h (asciiBytes "Nobody inspects the spammish repetition") w1)).1 =
        some "fbcea83c8a378bf1" ∧
      (PYXXH64_digest XXH64 h
        (PYXXH64_update XXH64 h (asciiBytes "Nobody inspects the spammish repetition") w1)).1 =
        some [0xf1, 0x8b, 0x37, 0x8a, 0x3c, 0xa8, 0xce, 0xfb] ∧
      (PYXXH64_hex_digest XXH64 h.cast
        (PYXXH64_update XXH64 h (asciiBytes " the spammish repetition")
          (PYXXH64_update XXH64 h (asciiBytes "Nobody inspects") w1))).1 =
        some "fbcea83c8a378bf1" ∧
      (PYXXH64_digest XXH64 h
        (PYXXH64_update XXH64 h (asciiBytes " the spammish repetition")
          (PYXXH64_update XXH64 h (asciiBytes "Nobody inspects") w1))).1 =
        some [0xf1, 0x8b, 0x37, 0x8a, 0x3c, 0xa8, 0xce, 0xfb]) := by
  have hfresh : (⟨w.heap ++ [XXH64.init 0], w.room - 1,
      w.calls ++ [CoreCall.init 0]⟩ : World XXH64).heap[w.heap.length]? =
      some (XXH64.init 0) := by simp
  refine ⟨by decide, ?_, ?_, ?_⟩
  · rw [xxh64_ok XXH64 _ 0 w (by decide), XXH64_hashIsStream, XXH64_spam]
    rfl
  · refine ⟨⟨w.heap.length⟩, _, PYXXH64_init_ok XXH64 _ 0 w hroom, ?_⟩
    apply spam_outputs ⟨w.heap.length⟩ _ _ (feed_heap_get XXH64 _ _ _ _ hfresh)
    rw [segments_spam]
    exact XXH64_spam
  · refine ⟨⟨w.heap.length⟩, (PYXXH64_init XXH64 [] 0 w).2, ?_, ?_⟩
    · rw [PYXXH64_init_ok XXH64 [] 0 w hroom]
    · rw [PYXXH64_init_ok XXH64 [] 0 w hroom]
      simp only [List.length_nil, feed_zero, PYXXH64_update]
      have one := spam_outputs ⟨w.heap.length⟩ _ _
        (feed_heap_get XXH64 _ (asciiBytes "Nobody inspects the spammish repetition") _ _
          hfresh) (by rw [segments_spam]; exact XXH64_spam)
      have two := spam_outputs ⟨w.heap.length⟩ _ _
        (feed_heap_get XXH64 _ (asciiBytes " the spammish repetition") _ _
          (feed_heap_get XXH64 _ (asciiBytes "Nobody inspects") _ _ hfresh))
        (by rw [segments_spam1, segments_spam2]; exact XXH64_spam_split)
      exact ⟨one.1, one.2, two.1, two.2⟩

/-- Witness of C10: a world with no object yet and room for one. -/
theorem known_vector_witness :
    0 < (World.boot XXH64 1).room ∧
    (xxh64 XXH64 (asciiBytes "Nobody inspects the spammish repetition") 0
      (World.boot XXH64 1)).1 = Except.ok 18144624926692707313 ∧
    (∃ h w1,
      PYXXH64_init XXH64 (asciiBytes "Nobody inspects the spammish repetition") 0
        (World.boot XXH64 1) = (Except.ok h, w1) ∧
      (PYXXH64_hex_digest XXH64 h.cast w1).1 = some "fbcea83c8a378bf1" ∧
      (PYXXH64_digest XXH64 h w1).1 =
        some [0xf1, 0x8b, 0x37, 0x8a, 0x3c, 0xa8, 0xce, 0xfb]) :=
  ⟨by decide, (known_vector (World.boot XXH64 1) (by decide)).2.1,
    (known_vector (World.boot XXH64 1) (by decide)).2.2.1⟩


/-! ## C11: metadata accessors -/

theorem objectBytes_length (size d : Nat) : (objectBytes size d).length = size := by
  simp [objectBytes]

theorem pyText_length (chars : List Nat) : (pyText chars).length = chars.length := by
  simp [pyText, String.length]

theorem name32 : pyText ((asciiBytes "XXH32").take 5) = "XXH32" := by
  decide

theorem name64 : pyText ((asciiBytes "XXH64").take 5) = "XXH64" := by
  decide

/-- The lengths of the two outputs of an `XXH32` object whose block exists. -/
theorem PYXXH32_output_lengths (xxh : HashCore) (self : PYXXH32Object) (w : World xxh)
    (st : xxh.State) (hp : w.heap[self.xxhash_state]? = some st) :
    ∃ d t, (PYXXH32_digest xxh self w).1 = some d ∧ d.length = 4 ∧
      (PYXXH32_hex_digest xxh self w).1 = some t ∧ t.length = 8 :=
  ⟨_, _, PYXXH32_digest_ready xxh self w st hp, objectBytes_length 4 _,
    PYXXH32_hex_digest_ready xxh self w st hp, by
      rw [pyText_length, hex_loop32_length]
      rfl⟩

/-- The lengths of the two outputs of an `XXH64` object whose block exists. -/
theorem PYXXH64_output_lengths (xxh : HashCore) (self : PYXXH64Object) (w : World xxh)
    (st : xxh.State) (hp : w.heap[self.xxhash_state]? = some st) :
    ∃ d t, (PYXXH64_digest xxh self w).1 = some d ∧ d.length = 8 ∧
      (PYXXH64_hex_digest xxh self.cast w).1 = some t ∧ t.length = 16 :=
  ⟨_, _, PYXXH64_digest_ready xxh self w st hp, objectBytes_length 8 _,
    PYXXH64_hex_digest_ready xxh self w st hp, by
      rw [pyText_length, hex_loop64_length]
      rfl⟩

/-- C11. Metadata accessors are fixed per variant and agree with the outputs.
For every world and every hasher whose state block exists, `XXH32` reports
digest_size 4, block_size 16 and name "XXH32", and `XXH64` reports digest_size
8, block_size 32 and name "XXH64"; the accessors change nothing; `digest()`
has exactly digest_size bytes and `hexdigest()` exactly 2 * digest_size
characters; and after any `update(x)` the accessors report the same values and
the outputs have the same lengths. -/
theorem metadata_fixed (c32 c64 : HashCore) (x : List Nat)
    (w32 : World c32) (h32 : PYXXH32Object) (st32 : c32.State)
    (hp32 : w32.heap[h32.xxhash_state]? = some st32)
    (w64 : World c64) (h64 : PYXXH64Object) (st64 : c64.State)
    (hp64 : w64.heap[h64.xxhash_state]? = some st64) :
    ((PYXXH32_get_digest_size c32 h32 w32).1 = 4 ∧
      (PYXXH32_get_block_size c32 h32 w32).1 = 16 ∧
      (PYXXH32_get_name c32 h32 w32).1 = "XXH32" ∧
      (PYXXH32_get_digest_size c32 h32 w32).2 = w32 ∧
      (PYXXH32_get_block_size c32 h32 w32).2 = w32 ∧
      (PYXXH32_get_name c32 h32 w32).2 = w32 ∧
      (∃ d t, (PYXXH32_digest c32 h32 w32).1 = some d ∧
        d.length = (PYXXH32_get_digest_size c32 h32 w32).1 ∧
        (PYXXH32_hex_digest c32 h32 w32).1 = some t ∧
        t.length = 2 * (PYXXH32_get_digest_size c32 h32 w32).1) ∧
      (PYXXH32_get_digest_size c32 h32 (PYXXH32_update c32 h32 x w32)).1 =
        (PYXXH32_get_digest_size c32 h32 w32).1 ∧
      (PYXXH32_get_block_size c32 h32 (PYXXH32_update c32 h32 x w32)).1 =
        (PYXXH32_get_block_size c32 h32 w32).1 ∧
      (PYXXH32_get_name c32 h32 (PYXXH32_update c32 h32 x w32)).1 =
        (PYXXH32_get_name c32 h32 w32).1 ∧
      (∃ d t, (PYXXH32_digest c32 h32 (PYXXH32_update c32 h32 x w32)).1 = some d ∧
        d.length = 4 ∧
        (PYXXH32_hex_digest c32 h32 (PYXXH32_update c32 h32 x w32)).1 = some t ∧
        t.length = 8)) ∧
    ((PYXXH64_get_digest_size c64 h64 w64).1 = 8 ∧
      (PYXXH64_get_block_size c64 h64 w64).1 = 32 ∧
      (PYXXH64_get_name c64 h64 w64).1 = "XXH64" ∧
      (PYXXH64_get_digest_size c64 h64 w64).2 = w64 ∧
      (PYXXH64_get_block_size c64 h64 w64).2 = w64 ∧
      (PYXXH64_get_name c64 h64 w64).2 = w64 ∧
      (∃ d t, (PYXXH64_digest c64 h64 w64).1 = some d ∧
        d.length = (PYXXH64_get_digest_size c64 h64 w64).1 ∧
        (PYXXH64_hex_digest c64 h64.cast w64).1 = some t ∧
        t.length = 2 * (PYXXH64_get_digest_size c64 h64 w64).1) ∧
      (PYXXH64_get_digest_size c64 h64 (PYXXH64_update c64 h64 x w64)).1 =
        (PYXXH64_get_digest_size c64 h64 w64).1 ∧
      (PYXXH64_get_block_size c64 h64 (PYXXH64_update c64 h64 x w64)).1 =
        (PYXXH64_get_block_size c64 h64 w64).1 ∧
      (PYXXH64_get_name c64 h64 (PYXXH64_update c64 h64 x w64)).1 =
        (PYXXH64_get_name c64 h64 w64).1 ∧
      (∃ d t, (PYXXH64_digest c64 h64 (PYXXH64_update c64 h64 x w64)).1 = some d ∧
        d.length = 8 ∧
        (PYXXH64_hex_digest c64 h64.cast (PYXXH64_update c64 h64 x w64)).1 = some t ∧
        t.length = 16)) := by
  constructor
  · refine ⟨rfl, rfl, name32, rfl, rfl, rfl,
      PYXXH32_output_lengths c32 h32 w32 st32 hp32, rfl, rfl, rfl,
      PYXXH32_output_lengths c32 h32 _ _ (feed_heap_get c32 _ x w32 st32 hp32)⟩
  · refine ⟨rfl, rfl, name64, rfl, rfl, rfl,
      PYXXH64_output_lengths c64 h64 w64 st64 hp64, rfl, rfl, rfl,
      PYXXH64_output_lengths c64 h64 _ _ (feed_heap_get c64 _ x w64 st64 hp64)⟩

/-- Witness of C11: freshly seeded blocks of the reference cores and the
buffer "xy"; the part of the conclusion on the values after `update`. -/
theorem metadata_fixed_witness :
    (⟨[XXH32.init 2], 0, []⟩ : World XXH32).heap[0]? = some (XXH32.init 2) ∧
    (⟨[XXH64.init 2], 0, []⟩ : World XXH64).heap[0]? = some (XXH64.init 2) ∧
    (PYXXH32_get_digest_size XXH32 ⟨0⟩ ⟨[XXH32.init 2], 0, []⟩).1 = 4 ∧
    (PYXXH32_get_block_size XXH32 ⟨0⟩ ⟨[XXH32.init 2], 0, []⟩).1 = 16 ∧
    (PYXXH32_get_name XXH32 ⟨0⟩ ⟨[XXH32.init 2], 0, []⟩).1 = "XXH32" ∧
    (PYXXH64_get_digest_size XXH64 ⟨0⟩ ⟨[XXH64.init 2], 0, []⟩).1 = 8 ∧
    (PYXXH64_get_block_size XXH64 ⟨0⟩ ⟨[XXH64.init 2], 0, []⟩).1 = 32 ∧
    (PYXXH64_get_name XXH64 ⟨0⟩ ⟨[XXH64.init 2], 0, []⟩).1 = "XXH64" ∧
    (∃ d t,
      (PYXXH32_digest XXH32 ⟨0⟩
        (PYXXH32_update XXH32 ⟨0⟩ [120, 121] ⟨[XXH32.init 2], 0, []⟩)).1 = some d ∧
      d.length = 4 ∧
      (PYXXH32_hex_digest XXH32 ⟨0⟩
        (PYXXH32_update XXH32 ⟨0⟩ [120, 121] ⟨[XXH32.init 2], 0, []⟩)).1 = some t ∧
      t.length = 8) ∧
    (∃ d t,
      (PYXXH64_digest XXH64 ⟨0⟩
        (PYXXH64_update XXH64 ⟨0⟩ [120, 121] ⟨[XXH64.init 2], 0, []⟩)).1 = some d ∧
      d.length = 8 ∧
      (PYXXH64_hex_digest XXH64 (PYXXH64Object.cast ⟨0⟩)
        (PYXXH64_update XXH64 ⟨0⟩ [120, 121] ⟨[XXH64.init 2], 0, []⟩)).1 = some t ∧
      t.length = 16) := by
  obtain ⟨⟨a1, a2, a3, _, _, _, _, _, _, _, a4⟩, ⟨b1, b2, b3, _, _, _, _, _, _, _, b4⟩⟩ :=
    metadata_fixed XXH32 XXH64 [120, 121] ⟨[XXH32.init 2], 0, []⟩ ⟨0⟩ _ rfl
      ⟨[XXH64.init 2], 0, []⟩ ⟨0⟩ _ rfl
  exact ⟨rfl, rfl, a1, a2, a3, b1, b2, b3, a4, b4⟩

/-! ## C12: chunk feeding -/

theorem segments_length_le : ∀ (n : Nat) (buf : List Nat), buf.length = n →
    ∀ s ∈ segments buf, s.length ≤ 1073741824 := by
  intro n
  induction n using Nat.strong_induction_on with
  | _ n ih =>
    intro buf hlen s hs
    by_cases hgt : n > 1073741824
    · rw [segments_large buf (by omega)] at hs
      rcases List.mem_cons.mp hs with h | h
      · subst h
        rw [List.length_take]
        omega
      · exact ih (n - 1073741824) (by omega) _ (by simp [List.length_drop, hlen]) s h
    · by_cases hne : buf = []
      · subst hne
        rw [segments_nil] at hs
        cases hs
      · rw [segments_small buf hne (by omega)] at hs
        simp at hs
        subst hs
        omega

theorem segments_ne_nil_of_ne_nil (buf : List Nat) (hne : buf ≠ []) : segments buf ≠ [] := by
  intro h
  have hflat := segments_flatten buf.length buf rfl
  rw [h] at hflat
  exact hne hflat.symm

/-- Every segment but the last is a full one. -/
theorem segments_dropLast : ∀ (n : Nat) (buf : List Nat), buf.length = n →
    ∀ s ∈ (segments buf).dropLast, s.length = 1073741824 := by
  intro n
  induction n using Nat.strong_induction_on with
  | _ n ih =>
    intro buf hlen s hs
    by_cases hgt : n > 1073741824
    · have hrest : buf.drop 1073741824 ≠ [] := by
        intro h
        have h1 := congrArg List.length h
        rw [List.length_drop] at h1
        simp only [List.length_nil] at h1
        omega
      rw [segments_large buf (by omega),
        List.dropLast_cons_of_ne_nil (segments_ne_nil_of_ne_nil _ hrest)] at hs
      rcases List.mem_cons.mp hs with h | h
      · subst h
        rw [List.length_take]
        omega
      · exact ih (n - 1073741824) (by omega) _ (by simp [List.length_drop, hlen]) s h
    · by_cases hne : buf = []
      · subst hne
        rw [segments_nil] at hs
        cases hs
      · rw [segments_small buf hne (by omega)] at hs
        cases hs

/-- The number of segments is the length divided by the cap, rounded up. -/
theorem segments_count : ∀ (n : Nat) (buf : List Nat), buf.length = n →
    (segments buf).length = (n + 1073741823) / 1073741824 := by
  intro n
  induction n using Nat.strong_induction_on with
  | _ n ih =>
    intro buf hlen
    by_cases hgt : n > 1073741824
    · rw [segments_large buf (by omega), List.length_cons,
        ih (n - 1073741824) (by omega) _ (by simp [List.length_drop, hlen])]
      omega
    · by_cases hne : buf = []
      · subst hne
        rw [segments_nil]
        simp only [List.length_nil] at hlen ⊢
        omega
      · have hpos : 0 < buf.length := List.length_pos.mpr hne
        rw [segments_small buf hne (by omega)]
        simp only [List.length_singleton]
        omega

/-- C12. Chunk feeding. For every buffer, of any length, `update` terminates
and calls the absorb primitive of the core on a sequence of segments whose
concatenation, in order, is the buffer; every segment is non-empty and at most
1073741824 bytes long, so that its length survives the downcast to a 32-bit
unsigned integer; every segment but the last has exactly 1073741824 bytes; the
number of calls is the length divided by 1073741824, rounded up; the block of
the hasher then holds what the core made of these segments, it still exists
and no allocation was spent, so `update` has not failed; and for the empty
buffer `update` makes no call and leaves the world as it was. For `XXH32` and
`XXH64`. -/
theorem chunk_feeding (c32 c64 : HashCore) (buf : List Nat)
    (w32 : World c32) (h32 : PYXXH32Object) (st32 : c32.State)
    (hp32 : w32.heap[h32.xxhash_state]? = some st32)
    (w64 : World c64) (h64 : PYXXH64Object) (st64 : c64.State)
    (hp64 : w64.heap[h64.xxhash_state]? = some st64) :
    ((∃ segs : List (List Nat),
        (PYXXH32_update c32 h32 buf w32).calls =
          w32.calls ++ segs.map (CoreCall.update h32.xxhash_state) ∧
        segs.flatten = buf ∧
        (∀ s ∈ segs, s ≠ [] ∧ s.length ≤ 1073741824 ∧ s.length % 2 ^ 32 = s.length) ∧
        (∀ s ∈ segs.dropLast, s.length = 1073741824) ∧
        segs.length = (buf.length + 1073741823) / 1073741824 ∧
        (PYXXH32_update c32 h32 buf w32).heap =
          w32.heap.set h32.xxhash_state (segs.foldl c32.update st32) ∧
        (PYXXH32_update c32 h32 buf w32).heap[h32.xxhash_state]? =
          some (segs.foldl c32.update st32) ∧
        (PYXXH32_update c32 h32 buf w32).room = w32.room) ∧
      PYXXH32_update c32 h32 [] w32 = w32) ∧
    ((∃ segs : List (List Nat),
        (PYXXH64_update c64 h64 buf w64).calls =
          w64.calls ++ segs.map (CoreCall.update h64.xxhash_state) ∧
        segs.flatten = buf ∧
        (∀ s ∈ segs, s ≠ [] ∧ s.length ≤ 1073741824 ∧ s.length % 2 ^ 32 = s.length) ∧
        (∀ s ∈ segs.dropLast, s.length = 1073741824) ∧
        segs.length = (buf.length + 1073741823) / 1073741824 ∧
        (PYXXH64_update c64 h64 buf w64).heap =
          w64.heap.set h64.xxhash_state (segs.foldl c64.update st64) ∧
        (PYXXH64_update c64 h64 buf w64).heap[h64.xxhash_state]? =
          some (segs.foldl c64.update st64) ∧
        (PYXXH64_update c64 h64 buf w64).room = w64.room) ∧
      PYXXH64_update c64 h64 [] w64 = w64) := by
  have hseg : ∀ s ∈ segments buf,
      s ≠ [] ∧ s.length ≤ 1073741824 ∧ s.length % 2 ^ 32 = s.length := by
    intro s hs
    have hle := segments_length_le buf.length buf rfl s hs
    exact ⟨segments_ne_nil buf.length buf rfl s hs, hle, Nat.mod_eq_of_lt (by omega)⟩
  constructor
  · exact ⟨⟨segments buf, feed_calls c32 _ buf w32, segments_flatten buf.length buf rfl, hseg,
      segments_dropLast buf.length buf rfl, segments_count buf.length buf rfl,
      feed_heap c32 _ buf w32 st32 hp32, feed_heap_get c32 _ buf w32 st32 hp32,
      feed_room c32 _ buf w32⟩, feed_zero c32 _ [] w32⟩
  · exact ⟨⟨segments buf, feed_calls c64 _ buf w64, segments_flatten buf.length buf rfl, hseg,
      segments_dropLast buf.length buf rfl, segments_count buf.length buf rfl,
      feed_heap c64 _ buf w64 st64 hp64, feed_heap_get c64 _ buf w64 st64 hp64,
      feed_room c64 _ buf w64⟩, feed_zero c64 _ [] w64⟩

/-- Witness of C12: freshly seeded blocks of the reference cores and a buffer
of 2147483649 bytes, which is two full segments and one byte; the part of the
conclusion on the calls and the segments. -/
theorem chunk_feeding_witness :
    (⟨[XXH32.init 2], 0, []⟩ : World XXH32).heap[0]? = some (XXH32.init 2) ∧
    (⟨[XXH64.init 2], 0, []⟩ : World XXH64).heap[0]? = some (XXH64.init 2) ∧
    (∃ segs : List (List Nat),
      (PYXXH32_update XXH32 ⟨0⟩ (List.replicate 2147483649 7)
        ⟨[XXH32.init 2], 0, []⟩).calls = [] ++ segs.map (CoreCall.update 0) ∧
      segs.flatten = List.replicate 2147483649 7 ∧
      (∀ s ∈ segs, s ≠ [] ∧ s.length ≤ 1073741824 ∧ s.length % 2 ^ 32 = s.length) ∧
      (∀ s ∈ segs.dropLast, s.length = 1073741824) ∧
      segs.length = ((List.replicate 2147483649 7).length + 1073741823) / 1073741824) ∧
    (∃ segs : List (List Nat),
      (PYXXH64_update XXH64 ⟨0⟩ (List.replicate 2147483649 7)
        ⟨[XXH64.init 2], 0, []⟩).calls = [] ++ segs.map (CoreCall.update 0) ∧
      segs.flatten = List.replicate 2147483649 7 ∧
      (∀ s ∈ segs, s ≠ [] ∧ s.length ≤ 1073741824 ∧ s.length % 2 ^ 32 = s.length) ∧
      (∀ s ∈ segs.dropLast, s.length = 1073741824) ∧
      segs.length = ((List.replicate 2147483649 7).length + 1073741823) / 1073741824) := by
  obtain ⟨⟨⟨s32, a1, a2, a3, a4, a5, _⟩, _⟩, ⟨⟨s64, b1, b2, b3, b4, b5, _⟩, _⟩⟩ :=
    chunk_feeding XXH32 XXH64 (List.replicate 2147483649 7)
      ⟨[XXH32.init 2], 0, []⟩ ⟨0⟩ _ rfl ⟨[XXH64.init 2], 0, []⟩ ⟨0⟩ _ rfl
  exact ⟨rfl, rfl, ⟨s32, a1, a2, a3, a4, a5⟩, ⟨s64, b1, b2, b3, b4, b5⟩⟩

end PyXXHash
